import Mathlib

/-!
The lamp-os expression engine: glitchy, shifty, breathing, pulse and the social behaviour.

A shallow embedding of the effect code under `software/lamp-os/src` and the
properties its specification states about it.

Conventions of the embedding
* `uint32_t` values are natural numbers; arithmetic that can wrap is written
  with an explicit `% U32`.
* `fb->buffer` and the other `std::vector<Color>` members are lists; the loop
  `for (int i = 0; i < fb->pixelCount; i++) fb->buffer[i] = ...` is `forPixels`.
  Reading `v[i]` past the end of a vector (undefined in C++) yields `default`.
* `millis()`, `shouldPause()` and `shouldAffectBuffer()` are inputs of the
  operation that calls them.
* `float` quantities are rationals (exact arithmetic, no rounding).
-/

namespace Lamp

/-- Number of values of a `uint32_t`. -/
def U32 : Nat := 2 ^ 32

/-- Four 8-bit channels (`util/color.hpp`). -/
structure Color where
  r : Nat
  g : Nat
  b : Nat
  w : Nat
deriving DecidableEq, Repr, Inhabited

/-- Playback state of an animated behaviour. -/
inductive AnimationState where
  | STOPPED
  | PLAYING
  | PLAYING_ONCE
deriving DecidableEq, Repr, Inhabited

/-- The shared pixel buffer: `int pixelCount` and `std::vector<Color> buffer`. -/
structure FrameBuffer where
  pixelCount : Int
  buffer : List Color
deriving DecidableEq, Repr, Inhabited

/-- The members of the `AnimatedBehavior` / `Expression` base class that the
effects read and write. -/
structure Expression where
  fb : FrameBuffer
  savedBuffer : List Color
  frames : Nat
  frame : Nat
  animationState : AnimationState
  colors : List Color
deriving DecidableEq, Repr, Inhabited

/-- The loop `for (int i = 0; i < n; i++) buffer[i] = f(i, buffer[i]);`. -/
def forPixels (n : Nat) (f : Nat → Color → Color) (buf : List Color) : List Color :=
  (List.range n).foldl (fun acc i => acc.set i (f i (acc[i]?.getD default))) buf

/-- Modelled from the spec: the base-class `nextFrame()` is not among the sources.
Section 4.2: "increments `frame`; if `frame` reaches `frames` and state is
PLAYING_ONCE, transitions to STOPPED"; section 3: "`0 ≤ frame ≤ frames`; `frame`
resets to 0 whenever state transitions to STOPPED"; PLAYING "loops indefinitely",
so a counter that reaches `frames` starts again at 0. -/
def Expression.nextFrame (e : Expression) : Expression :=
  let f := (e.frame + 1) % U32
  if f < e.frames then { e with frame := f }
  else if e.animationState = AnimationState.PLAYING_ONCE then
    { e with frame := 0, animationState := AnimationState.STOPPED }
  else { e with frame := 0 }

/-- Modelled from the spec: the base-class `isLastFrame()` is not among the sources.
The last frame is the tick whose `nextFrame()` step makes `frame` reach `frames`
(section 4.2: the transition happens "after the final draw has executed"). -/
def Expression.isLastFrame (e : Expression) : Bool :=
  decide (e.frames ≤ e.frame + 1)

/-- Modelled from the spec: one channel of `fadeLinear` (`util/fade.hpp` is not among
the sources). Section 4.1: "`step = 0 → from`; `step ≥ totalSteps → to`; intermediate
steps interpolate each channel independently as `from + (to - from) * step / totalSteps`,
rounding toward nearest". -/
def fadeLinearChannel (a b totalSteps step : Nat) : Nat :=
  if step = 0 then a
  else if totalSteps ≤ step then b
  else if a ≤ b then a + (2 * (b - a) * step + totalSteps) / (2 * totalSteps)
  else a - (2 * (a - b) * step + totalSteps) / (2 * totalSteps)

/-- Modelled from the spec: `fadeLinear(from, to, totalSteps, step)`, channel by channel. -/
def fadeLinear (c1 c2 : Color) (totalSteps step : Nat) : Color :=
  { r := fadeLinearChannel c1.r c2.r totalSteps step
    g := fadeLinearChannel c1.g c2.g totalSteps step
    b := fadeLinearChannel c1.b c2.b totalSteps step
    w := fadeLinearChannel c1.w c2.w totalSteps step }

/-! ## Glitchy (`expressions/glitchy_expression.cpp`) -/

/-- State of `GlitchyExpression`. -/
structure GlitchyExpression extends Expression where
  glitchColor : Color
  glitchDurationMin : Nat
  glitchDurationMax : Nat
deriving DecidableEq, Repr, Inhabited

/-- The call `nextFrame()` made on a glitchy effect. -/
def GlitchyExpression.nextFrame (g : GlitchyExpression) : GlitchyExpression :=
  { g with toExpression := g.toExpression.nextFrame }

/-- `GlitchyExpression::draw`; the argument is the result of `shouldAffectBuffer()`. -/
def GlitchyExpression.draw (g : GlitchyExpression) (shouldAffectBuffer : Bool) :
    GlitchyExpression :=
  if !shouldAffectBuffer then g.nextFrame
  else if g.isLastFrame then
    GlitchyExpression.nextFrame { g with fb := { g.fb with buffer := g.savedBuffer } }
  else
    let tinted := forPixels g.fb.pixelCount.toNat
      (fun _ c => fadeLinear c g.glitchColor 100 95) g.fb.buffer
    GlitchyExpression.nextFrame { g with fb := { g.fb with buffer := tinted } }

/-- `GlitchyExpression::configureFromParameters`. The map is given by its lookup:
`parameters k` is the value stored under key `k`, `none` when `find` reaches `end()`. -/
def GlitchyExpression.configureFromParameters (g : GlitchyExpression)
    (parameters : String → Option Nat) : GlitchyExpression :=
  let durationMin := (parameters "durationMin").getD 1
  let durationMax := (parameters "durationMax").getD 3
  let validMin := if durationMin > 0 ∧ durationMin ≤ 60 then durationMin else 1
  let validMax := if durationMax > 0 ∧ durationMax ≤ 60 then durationMax else 3
  { g with
    glitchDurationMin := validMin
    glitchDurationMax := if validMax < validMin then validMin else validMax }

/-- The duration bound as the specification words it: a value clamped into 1..60. -/
def specClampDuration (x : Nat) : Nat := max 1 (min x 60)

/-- The lower duration bound as the specification words it: `clamp(durationMin, 1, 60)`,
an absent key counting as 1. -/
def specGlitchDurationMin (parameters : String → Option Nat) : Nat :=
  specClampDuration ((parameters "durationMin").getD 1)

/-- The upper duration bound as the specification words it:
`max(clamp(durationMax, 1, 60), glitchDurationMin)`, an absent key counting as 3. -/
def specGlitchDurationMax (parameters : String → Option Nat) : Nat :=
  max (specClampDuration ((parameters "durationMax").getD 3)) (specGlitchDurationMin parameters)

/-- A configuration map whose only entry is `durationMin = 100`. -/
def paramsDurationMinTooLarge : String → Option Nat :=
  fun k => if k = "durationMin" then some 100 else none

/-- A configuration map with `durationMin = 5` and `durationMax = 2`. -/
def paramsDurationInverted : String → Option Nat :=
  fun k => if k = "durationMin" then some 5 else if k = "durationMax" then some 2 else none

/-- `GlitchyExpression::onTrigger`. `randomColor` is the result of `getRandomColor()`
(a base-class helper, not among the sources) and `dist a b` the value the generator
yields for `std::uniform_int_distribution<uint32_t>(a, b)`. The second component lists
the ranges for which a distribution is constructed and drawn from. -/
def GlitchyExpression.onTrigger (g : GlitchyExpression) (randomColor : Color)
    (dist : Nat → Nat → Nat) : GlitchyExpression × List (Nat × Nat) :=
  let g1 : GlitchyExpression := { g with glitchColor := randomColor }
  if g1.glitchDurationMin = g1.glitchDurationMax then
    ({ g1 with frames := g1.glitchDurationMin }, [])
  else
    ({ g1 with frames := dist g1.glitchDurationMin g1.glitchDurationMax },
      [(g1.glitchDurationMin, g1.glitchDurationMax)])

/-- A glitchy effect on its last frame (frame 2 of 3) whose buffer still shows the
tint while the snapshot holds the original pixel. -/
def glitchyLastFrameGated : GlitchyExpression :=
  { fb := { pixelCount := 1, buffer := [⟨200, 10, 10, 0⟩] }
    savedBuffer := [⟨0, 0, 0, 0⟩]
    frames := 3
    frame := 2
    animationState := AnimationState.PLAYING_ONCE
    colors := [⟨255, 0, 0, 0⟩]
    glitchColor := ⟨255, 0, 0, 0⟩
    glitchDurationMin := 1
    glitchDurationMax := 3 }

/-! ## Social behaviour (`behaviors/social.cpp`) -/

/-- The difference `a - b` of two `uint32_t` values. -/
def subU32 (a b : Nat) : Nat := (a + U32 - b % U32) % U32

/-- A discovered peer (`components/network/bluetooth.hpp`). -/
structure BluetoothLampRecord where
  name : String
  baseColor : Color
  acknowledged : Bool
deriving DecidableEq, Repr, Inhabited

/-- State of `SocialBehavior`. The vector behind `foundLamps = bt->getLamps()` belongs
to the bluetooth component and is passed to `control` at every call. The members
`nextAcknowledgeTimeMs` and `easeFrames` are declared in `social.hpp`, which is not
among the sources; they are `uint32_t` like `frame` and `frames`. -/
structure SocialBehavior extends Expression where
  foundLampColor : Color
  nextAcknowledgeTimeMs : Nat
  easeFrames : Nat
deriving DecidableEq, Repr, Inhabited

/-- The call `nextFrame()` made on the social behaviour. -/
def SocialBehavior.nextFrame (s : SocialBehavior) : SocialBehavior :=
  { s with toExpression := s.toExpression.nextFrame }

/-- Modelled from the spec: the base-class `playOnce()` is not among the sources. Section
4.4: "triggers a one-shot playback"; section 4.2: the state of a one-shot playback is
PLAYING_ONCE. -/
def SocialBehavior.playOnce (s : SocialBehavior) : SocialBehavior :=
  { s with animationState := AnimationState.PLAYING_ONCE }

/-- The value `SocialBehavior::draw` writes to `fb->buffer[i]`. The easing function
`fade` of `util/fade.hpp` is not among the sources and is a parameter. -/
def SocialBehavior.drawPixel (fade : Color → Color → Nat → Nat → Color)
    (s : SocialBehavior) (i : Nat) : Color :=
  if s.frame < s.easeFrames then
    fade (s.savedBuffer[i]?.getD default) s.foundLampColor s.easeFrames s.frame
  else if s.frame > subU32 s.frames s.easeFrames then
    if s.isLastFrame then s.savedBuffer[i]?.getD default
    else
      fade s.foundLampColor (s.savedBuffer[i]?.getD default) s.easeFrames
        (subU32 s.frame (subU32 s.frames s.easeFrames))
  else s.foundLampColor

/-- `SocialBehavior::draw`. -/
def SocialBehavior.draw (fade : Color → Color → Nat → Nat → Color)
    (s : SocialBehavior) : SocialBehavior :=
  let drawn := forPixels s.fb.pixelCount.toNat (fun i _ => s.drawPixel fade i) s.fb.buffer
  SocialBehavior.nextFrame { s with fb := { s.fb with buffer := drawn } }

/-- The loop of `SocialBehavior::control` over `rbegin() .. rend()`: the argument lists
the records in iteration order (most recently discovered first). The result is the
record the loop stops at, as it was before the write, and the records after the write;
`none` when every record is acknowledged. -/
def acknowledgeFirst :
    List BluetoothLampRecord → Option (BluetoothLampRecord × List BluetoothLampRecord)
  | [] => none
  | r :: rest =>
    if !r.acknowledged then some (r, { r with acknowledged := true } :: rest)
    else
      match acknowledgeFirst rest with
      | none => none
      | some (found, rest1) => some (found, r :: rest1)

/-- `SocialBehavior::control`. `ackInterval` is the constant
`LAMP_TIME_BETWEEN_ACKNOWLEDGEMENT_MS` (its definition is not among the sources),
`now` the value of `millis()`, `lamps` the vector `*bt->getLamps()`; the second
component of the result is that vector after the call. -/
def SocialBehavior.control (ackInterval : Nat) (s : SocialBehavior) (now : Nat)
    (lamps : List BluetoothLampRecord) : SocialBehavior × List BluetoothLampRecord :=
  if s.animationState = AnimationState.STOPPED ∧ now > s.nextAcknowledgeTimeMs then
    match acknowledgeFirst lamps.reverse with
    | none => (s, lamps)
    | some (found, rest) =>
      (SocialBehavior.playOnce
        { s with
          foundLampColor := found.baseColor
          nextAcknowledgeTimeMs := (now + ackInterval) % U32
          savedBuffer := s.fb.buffer }, rest.reverse)
  else (s, lamps)

/-- Peer `A`, not yet acknowledged. -/
def peerA : BluetoothLampRecord :=
  { name := "A", baseColor := ⟨255, 0, 0, 0⟩, acknowledged := false }

/-- Peer `B`, discovered after `A`, not yet acknowledged. -/
def peerB : BluetoothLampRecord :=
  { name := "B", baseColor := ⟨0, 0, 255, 0⟩, acknowledged := false }

/-- A stopped social behaviour on a two-pixel strip: 3 frames per playback, no easing. -/
def socialIdle : SocialBehavior :=
  { fb := { pixelCount := 2, buffer := [⟨10, 20, 30, 0⟩, ⟨40, 50, 60, 0⟩] }
    savedBuffer := []
    frames := 3
    frame := 0
    animationState := AnimationState.STOPPED
    colors := []
    foundLampColor := ⟨0, 0, 0, 0⟩
    nextAcknowledgeTimeMs := 0
    easeFrames := 0 }

/-- The final tick (frame 9 of 10) of a playback with `easeFrames = 3`. -/
def socialFinalTick : SocialBehavior :=
  { fb := { pixelCount := 2, buffer := [⟨0, 0, 255, 0⟩, ⟨0, 0, 255, 0⟩] }
    savedBuffer := [⟨10, 20, 30, 0⟩, ⟨40, 50, 60, 0⟩]
    frames := 10
    frame := 9
    animationState := AnimationState.PLAYING_ONCE
    colors := []
    foundLampColor := ⟨0, 0, 255, 0⟩
    nextAcknowledgeTimeMs := 0
    easeFrames := 3 }

/-- The final tick (frame 9 of 10) of a playback with `easeFrames = 1`. -/
def socialFinalTickEaseOne : SocialBehavior :=
  { socialFinalTick with easeFrames := 1 }

/-- The final tick (frame 9 of 10) of a playback without easing (`easeFrames = 0`). -/
def socialFinalTickNoEase : SocialBehavior :=
  { socialFinalTick with easeFrames := 0 }

/-! ## Shifty (`expressions/shifty_expression.cpp`) -/

/-- Sub-state of the shifty effect. -/
inductive ShiftyState where
  | IDLE
  | FADING_TO_PALETTE
  | SHIFTED
  | FADING_BACK
deriving DecidableEq, Repr, Inhabited

/-- State of `ShiftyExpression`. -/
structure ShiftyExpression extends Expression where
  state : ShiftyState
  shiftedColor : Color
  fadeStartColors : List Color
  fadeTargetColors : List Color
  shiftDurationMinMs : Nat
  shiftDurationMaxMs : Nat
  fadeDurationFrames : Nat
  currentShiftDurationMs : Nat
  shiftStartMs : Nat
deriving DecidableEq, Repr, Inhabited

/-- The call `nextFrame()` made on a shifty effect. -/
def ShiftyExpression.nextFrame (s : ShiftyExpression) : ShiftyExpression :=
  { s with toExpression := s.toExpression.nextFrame }

/-- `ShiftyExpression::startUnshift`. -/
def ShiftyExpression.startUnshift (s : ShiftyExpression) : ShiftyExpression :=
  { s with
    fadeStartColors := List.replicate s.fb.pixelCount.toNat s.shiftedColor
    fadeTargetColors := s.savedBuffer
    frames := s.fadeDurationFrames
    frame := 0
    state := ShiftyState.FADING_BACK }

/-- `ShiftyExpression::configureFromParameters`. The map is given by its lookup;
`hasFrameBuffer` is the result of the null test on `fb`. -/
def ShiftyExpression.configureFromParameters (s : ShiftyExpression)
    (parameters : String → Option Nat) (hasFrameBuffer : Bool) : ShiftyExpression :=
  let shiftDurationMin := (parameters "shiftDurationMin").getD 300
  let shiftDurationMax := (parameters "shiftDurationMax").getD 600
  let fadeDuration := (parameters "fadeDuration").getD 60
  let s1 : ShiftyExpression :=
    { s with
      shiftDurationMinMs := shiftDurationMin * 1000 % U32
      shiftDurationMaxMs := shiftDurationMax * 1000 % U32
      fadeDurationFrames := fadeDuration * 30 % U32 }
  if s1.colors.isEmpty ∧ hasFrameBuffer = true ∧ s1.fb.pixelCount > 0 then
    { s1 with colors := s1.colors ++ [s1.fb.buffer[0]?.getD default] }
  else s1

/-- `ShiftyExpression::getRandomShiftDuration`. `dist a b` is the value the generator
yields for `std::uniform_int_distribution<uint32_t>(a, b)`. -/
def ShiftyExpression.getRandomShiftDuration (s : ShiftyExpression)
    (dist : Nat → Nat → Nat) : Nat :=
  dist s.shiftDurationMinMs s.shiftDurationMaxMs

/-- `ShiftyExpression::startShift`. `randomColor` is the result of `getRandomColor()`
(a base-class helper, not among the sources), `now` the value of `millis()`. -/
def ShiftyExpression.startShift (s : ShiftyExpression) (randomColor : Color)
    (dist : Nat → Nat → Nat) (now : Nat) : ShiftyExpression :=
  let shifted : Color := if !s.colors.isEmpty then randomColor else ⟨255, 255, 255, 255⟩
  { s with
    shiftedColor := shifted
    fadeStartColors := s.fb.buffer
    fadeTargetColors := List.replicate s.fb.pixelCount.toNat shifted
    frames := s.fadeDurationFrames
    frame := 0
    state := ShiftyState.FADING_TO_PALETTE
    currentShiftDurationMs := s.getRandomShiftDuration dist
    shiftStartMs := now }

/-- `ShiftyExpression::onTrigger`. -/
def ShiftyExpression.onTrigger (s : ShiftyExpression) (randomColor : Color)
    (dist : Nat → Nat → Nat) (now : Nat) : ShiftyExpression :=
  let s1 : ShiftyExpression :=
    if s.state ≠ ShiftyState.IDLE then { s with state := ShiftyState.IDLE } else s
  s1.startShift randomColor dist now

/-- A configuration map with `shiftDurationMin = 600` and `shiftDurationMax = 300`. -/
def paramsShiftInverted : String → Option Nat :=
  fun k =>
    if k = "shiftDurationMin" then some 600
    else if k = "shiftDurationMax" then some 300 else none

/-- A configuration map with `shiftDurationMin = 1` and `shiftDurationMax = 4294968`. -/
def paramsShiftOverflow : String → Option Nat :=
  fun k =>
    if k = "shiftDurationMin" then some 1
    else if k = "shiftDurationMax" then some 4294968 else none

/-- `ShiftyExpression::onUpdate`; `now` is the value of `millis()`. The float expression
`frame + (currentShiftDurationMs / 1000.0f) * 30` is taken exactly and truncated. -/
def ShiftyExpression.onUpdate (s : ShiftyExpression) (now : Nat) : ShiftyExpression :=
  match s.state with
  | ShiftyState.FADING_TO_PALETTE =>
    if s.isLastFrame then
      { s with
        state := ShiftyState.SHIFTED
        shiftStartMs := now
        frames := (s.frame + s.currentShiftDurationMs * 30 / 1000) % U32 }
    else s
  | ShiftyState.SHIFTED =>
    if subU32 now s.shiftStartMs > s.currentShiftDurationMs then s.startUnshift else s
  | ShiftyState.FADING_BACK =>
    if s.isLastFrame then { s with state := ShiftyState.IDLE } else s
  | ShiftyState.IDLE => s

/-- `ShiftyExpression::onComplete`: the names passed to `manager->triggerExpression`, in
call order. The argument tells whether `getGlobalExpressionManager()` returns a manager. -/
def ShiftyExpression.onComplete (s : ShiftyExpression) (managerExists : Bool) : List String :=
  if s.state = ShiftyState.IDLE then
    if managerExists then ["glitchy"] else []
  else []

/-- `ShiftyExpression::draw`; the arguments are the results of `shouldPause()` and
`shouldAffectBuffer()`. -/
def ShiftyExpression.draw (s : ShiftyExpression) (shouldPause shouldAffectBuffer : Bool) :
    ShiftyExpression :=
  if shouldPause then s
  else if !shouldAffectBuffer then s.nextFrame
  else
    match s.state with
    | ShiftyState.FADING_TO_PALETTE | ShiftyState.FADING_BACK =>
      let faded := forPixels s.fb.pixelCount.toNat
        (fun i _ => fadeLinear (s.fadeStartColors[i]?.getD default)
          (s.fadeTargetColors[i]?.getD default) s.frames s.frame) s.fb.buffer
      ShiftyExpression.nextFrame { s with fb := { s.fb with buffer := faded } }
    | ShiftyState.SHIFTED =>
      let flat := forPixels s.fb.pixelCount.toNat (fun _ _ => s.shiftedColor) s.fb.buffer
      ShiftyExpression.nextFrame { s with fb := { s.fb with buffer := flat } }
    | ShiftyState.IDLE => s.nextFrame

/-- The `(totalSteps, step)` arguments of the calls of `fadeLinear` that
`ShiftyExpression::draw` makes, one call per pixel of the loop. -/
def ShiftyExpression.drawFadeArguments (s : ShiftyExpression)
    (shouldPause shouldAffectBuffer : Bool) : List (Nat × Nat) :=
  if shouldPause then []
  else if !shouldAffectBuffer then []
  else
    match s.state with
    | ShiftyState.FADING_TO_PALETTE | ShiftyState.FADING_BACK =>
      (List.range s.fb.pixelCount.toNat).map (fun _ => (s.frames, s.frame))
    | ShiftyState.SHIFTED => []
    | ShiftyState.IDLE => []

/-- A configuration map whose only entry is `fadeDuration = 0`. -/
def paramsFadeZero : String → Option Nat :=
  fun k => if k = "fadeDuration" then some 0 else none

/-- A configuration map whose only entry is `fadeDuration = 2147483648`. -/
def paramsFadeWrap : String → Option Nat :=
  fun k => if k = "fadeDuration" then some 2147483648 else none

/-- An empty configuration map. -/
def paramsEmpty : String → Option Nat :=
  fun _ => none

/-- One tick of a shifty effect that is neither paused nor gated: `onUpdate`, then `draw`. -/
def ShiftyExpression.tick (s : ShiftyExpression) (now : Nat) : ShiftyExpression :=
  (s.onUpdate now).draw false true

/-- A shifty effect fading back from white to a black snapshot over 30 frames, at
frame 28. -/
def shiftyFadingBack : ShiftyExpression :=
  { fb := { pixelCount := 1, buffer := [⟨25, 25, 25, 25⟩] }
    savedBuffer := [⟨0, 0, 0, 0⟩]
    frames := 30
    frame := 28
    animationState := AnimationState.PLAYING_ONCE
    colors := [⟨255, 255, 255, 255⟩]
    state := ShiftyState.FADING_BACK
    shiftedColor := ⟨255, 255, 255, 255⟩
    fadeStartColors := [⟨255, 255, 255, 255⟩]
    fadeTargetColors := [⟨0, 0, 0, 0⟩]
    shiftDurationMinMs := 300000
    shiftDurationMaxMs := 600000
    fadeDurationFrames := 30
    currentShiftDurationMs := 300000
    shiftStartMs := 1000 }

/-- The same effect one tick later: frame 29 of 30, the last frame of the fade back,
with the buffer the tick at frame 28 has drawn. -/
def shiftyFadingBackLast : ShiftyExpression :=
  { shiftyFadingBack with
    fb := { pixelCount := 1, buffer := [⟨17, 17, 17, 17⟩] }
    frame := 29 }

/-- A shifty effect configured with `fadeDuration = 0` that holds its shifted color
since clock value 1000, for a hold time of 300000 ms. -/
def shiftyHoldingNoFade : ShiftyExpression :=
  { (shiftyFadingBack.configureFromParameters paramsFadeZero true) with
    state := ShiftyState.SHIFTED
    frames := 9000
    frame := 8000 }

/-! ## Breathing (`expressions/breathing_expression.cpp`) -/

/-- State of `BreathingExpression`. -/
structure BreathingExpression extends Expression where
  breathPhase : ℚ
  lastBreathUpdateMs : Nat
  breathSpeedMs : Nat
  targetColor : Color
  currentColorIndex : Nat
  cyclingForward : Bool
deriving DecidableEq, Repr, Inhabited

/-- The call `nextFrame()` made on a breathing effect. -/
def BreathingExpression.nextFrame (b : BreathingExpression) : BreathingExpression :=
  { b with toExpression := b.toExpression.nextFrame }

/-- `BreathingExpression::draw`. The library function `cos` and the constant `PI` are
parameters; the other arguments are the results of `shouldPause()` and
`shouldAffectBuffer()`. -/
def BreathingExpression.draw (cos : ℚ → ℚ) (PI : ℚ) (b : BreathingExpression)
    (shouldPause shouldAffectBuffer : Bool) : BreathingExpression :=
  if shouldPause then b
  else if !shouldAffectBuffer then b.nextFrame
  else
    let sineValue : ℚ := 1 / 2 - 1 / 2 * cos (b.breathPhase * 2 * PI)
    let breathIntensity : Nat := ⌊sineValue * 100⌋.toNat % U32
    let blended := forPixels b.fb.pixelCount.toNat
      (fun i _ => fadeLinear (b.savedBuffer[i]?.getD default) b.targetColor 100 breathIntensity)
      b.fb.buffer
    BreathingExpression.nextFrame { b with fb := { b.fb with buffer := blended } }

/-- The breath intensity of `BreathingExpression::draw`,
`static_cast<uint32_t>((0.5f - 0.5f * cos(breathPhase * 2.0f * PI)) * 100.0f)`, over any
ordered field with a floor; `BreathingExpression.draw` uses it over the rationals. -/
def breathIntensity {K : Type} [LinearOrderedField K] [FloorRing K] (cos : K → K) (PI : K)
    (breathPhase : K) : Nat :=
  ⌊(1 / 2 - 1 / 2 * cos (breathPhase * 2 * PI)) * 100⌋.toNat % U32

/-- The block of `BreathingExpression::updateBreathPhase` guarded by
`if (colors.size() > 1)`: the palette index moves one step and the target color follows. -/
def BreathingExpression.advanceColor (b : BreathingExpression) : BreathingExpression :=
  if b.colors.length > 1 then
    let b1 : BreathingExpression :=
      if b.cyclingForward then
        let next := (b.currentColorIndex + 1) % U32
        if next ≥ b.colors.length - 1 then
          { b with currentColorIndex := b.colors.length - 1, cyclingForward := false }
        else { b with currentColorIndex := next }
      else if b.currentColorIndex = 0 then
        { b with cyclingForward := true, currentColorIndex := 1 }
      else { b with currentColorIndex := b.currentColorIndex - 1 }
    { b1 with targetColor := b1.colors[b1.currentColorIndex]?.getD default }
  else b

/-- `BreathingExpression::updateBreathPhase`; `now` is the value of `millis()`. The
quotient is exact; for `breathSpeedMs = 0` (a float division by zero in C++) it is 0. -/
def BreathingExpression.updateBreathPhase (b : BreathingExpression) (now : Nat) :
    BreathingExpression :=
  if b.lastBreathUpdateMs = 0 then { b with lastBreathUpdateMs := now }
  else
    let deltaMs : Nat := subU32 now b.lastBreathUpdateMs
    let phaseIncrement : ℚ := (deltaMs : ℚ) / (b.breathSpeedMs : ℚ)
    let b1 : BreathingExpression := { b with breathPhase := b.breathPhase + phaseIncrement }
    let b2 : BreathingExpression :=
      if b1.breathPhase ≥ 1 then
        BreathingExpression.advanceColor { b1 with breathPhase := b1.breathPhase - 1 }
      else b1
    { b2 with lastBreathUpdateMs := now }

/-- Modelled from the spec: the base-class `saveBufferState()` is not among the sources.
Section 3: `savedBuffer` is a "snapshot of the FrameBuffer taken at trigger time". -/
def Expression.saveBufferState (e : Expression) : Expression :=
  { e with savedBuffer := e.fb.buffer }

/-- Modelled from the spec: the base-class `play()` is not among the sources. Section 4.2:
PLAYING is the state that "loops indefinitely until externally stopped". -/
def Expression.play (e : Expression) : Expression :=
  { e with animationState := AnimationState.PLAYING }

/-- `BreathingExpression::onTrigger`; `BREATHING_MAX_FRAMES` is 100000. -/
def BreathingExpression.onTrigger (b : BreathingExpression) : BreathingExpression :=
  let b1 : BreathingExpression := { b with toExpression := b.toExpression.saveBufferState }
  let b2 : BreathingExpression :=
    { b1 with
      breathPhase := 0
      lastBreathUpdateMs := 0
      currentColorIndex := 0
      cyclingForward := true
      frames := 100000
      frame := 0 }
  { b2 with toExpression := b2.toExpression.play }

/-- A breathing effect at frame 5 of its 100000 frames. -/
def breathingPlaying : BreathingExpression :=
  { fb := { pixelCount := 1, buffer := [⟨10, 20, 30, 0⟩] }
    savedBuffer := [⟨10, 20, 30, 0⟩]
    frames := 100000
    frame := 5
    animationState := AnimationState.PLAYING
    colors := [⟨255, 255, 255, 255⟩]
    breathPhase := 1 / 4
    lastBreathUpdateMs := 1000
    breathSpeedMs := 10000
    targetColor := ⟨255, 255, 255, 255⟩
    currentColorIndex := 0
    cyclingForward := true }

/-- A breathing effect with a 1 s breath cycle (`breathSpeed = 1`), at phase 1/4, last
updated at clock value 1000. -/
def breathingFast : BreathingExpression :=
  { breathingPlaying with breathSpeedMs := 1000 }

/-- A rational stand-in for the library cosine, used to run `draw` on examples: a
clamped triangle wave that is 1 at 0, -1 at `rationalPI` and stays within `[-1, 1]`. -/
def rationalCos (x : ℚ) : ℚ := max (-1) (1 - 2 * |x| / 3)

/-- The value that plays the part of `PI` with `rationalCos`. -/
def rationalPI : ℚ := 3

/-- A breathing effect at phase 0 whose buffer differs from the saved base color. -/
def breathingAtRest : BreathingExpression :=
  { breathingPlaying with
    fb := { pixelCount := 1, buffer := [⟨99, 99, 99, 99⟩] }
    breathPhase := 0 }

/-- The same effect at phase 1/2. -/
def breathingAtPeak : BreathingExpression :=
  { breathingAtRest with breathPhase := 1 / 2 }

/-- A breathing effect with a palette of two colors and a 10 s breath cycle. -/
def breathingTwoColors : BreathingExpression :=
  { breathingPlaying with
    colors := [⟨255, 0, 0, 0⟩, ⟨0, 0, 255, 0⟩]
    targetColor := ⟨255, 0, 0, 0⟩ }

/-- A breathing effect with a palette of three colors and a 10 s breath cycle. -/
def breathingThreeColors : BreathingExpression :=
  { breathingPlaying with
    colors := [⟨255, 0, 0, 0⟩, ⟨0, 255, 0, 0⟩, ⟨0, 0, 255, 0⟩]
    targetColor := ⟨255, 0, 0, 0⟩ }

/-- The two-color breathing effect after `onTrigger` and one call of
`updateBreathPhase` at each of the clock values `ts`. -/
def breathingTwoColorsRun (ts : List Nat) : BreathingExpression :=
  ts.foldl BreathingExpression.updateBreathPhase breathingTwoColors.onTrigger

/-! ## Pulse (`expressions/pulse_expression.cpp`) -/

/-- State of `PulseExpression`. -/
structure PulseExpression extends Expression where
  wavePosition : ℚ
  waveDirection : Int
  lastUpdateMs : Nat
  pulseSpeedMs : Nat
  pulseWidth : Nat
  pulseColor : Color
deriving DecidableEq, Repr, Inhabited

/-- The call `nextFrame()` made on a pulse effect. -/
def PulseExpression.nextFrame (p : PulseExpression) : PulseExpression :=
  { p with toExpression := p.toExpression.nextFrame }

/-- Modelled from the spec: the base-class `stop()` is not among the sources. Section 4.2:
"force transition to STOPPED, `frame` reset to 0; does not restore the buffer". -/
def PulseExpression.stop (p : PulseExpression) : PulseExpression :=
  { p with animationState := AnimationState.STOPPED, frame := 0 }

/-- `PulseExpression::calculateBlendFactor`. -/
def PulseExpression.calculateBlendFactor (p : PulseExpression) (pixelIndex : Int) : Nat :=
  let distance : ℚ := |(pixelIndex : ℚ) - p.wavePosition|
  if distance > (p.pulseWidth : ℚ) then 0
  else if distance < 1 / 2 then 100
  else
    let normalizedDist : ℚ := distance / (p.pulseWidth : ℚ)
    let factor : ℚ := max 0 (1 - normalizedDist * normalizedDist)
    ⌊factor * 100⌋.toNat

/-- `PulseExpression::updateWavePosition`; `now` is the value of `millis()`. The
quotient is exact; for `pulseSpeedMs = 0` (a float division by zero in C++) it is 0. -/
def PulseExpression.updateWavePosition (p : PulseExpression) (now : Nat) : PulseExpression :=
  if p.lastUpdateMs = 0 then { p with lastUpdateMs := now }
  else
    let deltaMs : Nat := subU32 now p.lastUpdateMs
    let pixelsToMove : ℚ := (deltaMs : ℚ) / (p.pulseSpeedMs : ℚ)
    { p with
      wavePosition := p.wavePosition + pixelsToMove * (p.waveDirection : ℚ)
      lastUpdateMs := now }

/-- The bound `fb->pixelCount + (2 * pulseWidth)` of `PulseExpression::draw`, computed
in `uint32_t` as in C++ (an `int` added to a `uint32_t`). -/
def PulseExpression.stripEnd (p : PulseExpression) : Nat :=
  ((p.fb.pixelCount + ((2 * p.pulseWidth % U32 : Nat) : Int)) % (U32 : Int)).toNat

/-- `PulseExpression::draw`; the arguments are the results of `shouldPause()`,
`shouldAffectBuffer()` and `millis()`. -/
def PulseExpression.draw (p : PulseExpression) (shouldPause shouldAffectBuffer : Bool)
    (now : Nat) : PulseExpression :=
  if shouldPause then p
  else if !shouldAffectBuffer ∧ p.animationState ≠ AnimationState.STOPPED then p
  else
    let p1 : PulseExpression :=
      if p.animationState = AnimationState.STOPPED ∧ p.wavePosition ≤ (p.stripEnd : ℚ) then
        p.updateWavePosition now
      else p
    let blended := forPixels p1.fb.pixelCount.toNat
      (fun i c =>
        let blendFactor := p1.calculateBlendFactor (i : Int)
        if blendFactor > 0 then fadeLinear c p1.pulseColor 100 blendFactor else c)
      p1.fb.buffer
    let p2 := PulseExpression.nextFrame { p1 with fb := { p1.fb with buffer := blended } }
    if p2.wavePosition > (p2.stripEnd : ℚ) then
      if p2.animationState ≠ AnimationState.STOPPED then p2.stop else p2
    else p2

/-- `PulseExpression::configureFromParameters`. The map is given by its lookup;
`hasFrameBuffer` is the result of the null test on `fb`. The quotient is the `uint32_t`
division of `pulseSpeed * 1000` by the positive `int` `fb->pixelCount`. -/
def PulseExpression.configureFromParameters (p : PulseExpression)
    (parameters : String → Option Nat) (hasFrameBuffer : Bool) : PulseExpression :=
  let pulseSpeed := (parameters "pulseSpeed").getD 3
  let speedMs : Nat :=
    if hasFrameBuffer = true ∧ p.fb.pixelCount > 0 then
      max 100 ((pulseSpeed * 1000 % U32) / p.fb.pixelCount.toNat)
    else 100
  let p1 : PulseExpression := { p with pulseSpeedMs := speedMs, pulseWidth := 15 }
  let p2 : PulseExpression :=
    if p1.colors.isEmpty then { p1 with colors := p1.colors ++ [⟨255, 255, 255, 255⟩] }
    else p1
  { p2 with pulseColor := p2.colors[0]?.getD default }

/-- A pulse at frame 5 whose wave center sits on pixel 0 of a dark two-pixel strip. -/
def pulsePlaying : PulseExpression :=
  { fb := { pixelCount := 2, buffer := [⟨0, 0, 0, 0⟩, ⟨0, 0, 0, 0⟩] }
    savedBuffer := []
    frames := 10000
    frame := 5
    animationState := AnimationState.PLAYING
    colors := [⟨255, 255, 255, 255⟩]
    wavePosition := 0
    waveDirection := 1
    lastUpdateMs := 1000
    pulseSpeedMs := 100
    pulseWidth := 15
    pulseColor := ⟨255, 255, 255, 255⟩ }

/-- The same pulse with the animation stopped. -/
def pulseStopped : PulseExpression :=
  { pulsePlaying with animationState := AnimationState.STOPPED, frame := 0 }

/-- A pulse whose wave center, at 33, has passed `pixelCount + 2 * pulseWidth = 32`. -/
def pulsePastEnd : PulseExpression :=
  { pulsePlaying with wavePosition := 33 }

/-! ## Theorems -/

/-- The pixel loop keeps the length of the buffer. -/
theorem forPixels_length (n : Nat) (f : Nat → Color → Color) (buf : List Color) :
    (forPixels n f buf).length = buf.length := by
  induction n with
  | zero => simp [forPixels]
  | succ k ih =>
    unfold forPixels at ih ⊢
    rw [List.range_succ, List.foldl_append]
    simp [ih]

/-- Reading the result of the pixel loop: a pixel inside the loop range holds the
written value, every other position is untouched. -/
theorem forPixels_getElem? (n : Nat) (f : Nat → Color → Color) (buf : List Color) (i : Nat) :
    (forPixels n f buf)[i]? = if i < n then (buf[i]?).map (f i) else buf[i]? := by
  induction n with
  | zero => simp [forPixels]
  | succ k ih =>
    have hlen := forPixels_length k f buf
    unfold forPixels at ih hlen ⊢
    rw [List.range_succ, List.foldl_append]
    simp only [List.foldl_cons, List.foldl_nil]
    rw [List.getElem?_set]
    by_cases hik : k = i
    · subst hik
      have ih2 := ih
      simp only [lt_irrefl, if_false] at ih2
      simp only [if_true, lt_add_one, hlen]
      by_cases hk : k < buf.length
      · simp [hk, ih2, List.getElem?_eq_getElem hk]
      · simp [hk, List.getElem?_eq_none (not_lt.mp hk)]
    · simp only [hik, if_false, ih]
      have hlt : (i < k + 1) ↔ i < k := by omega
      simp only [hlt]

/-- C1 (amended): with buffer writes allowed, the last frame of a glitchy effect
puts the pre-trigger snapshot back, whatever the buffer held and whatever the
glitch color is. -/
theorem glitchy_last_frame_restores (g : GlitchyExpression)
    (hlast : g.isLastFrame = true) :
    (g.draw true).fb.buffer = g.savedBuffer := by
  simp [GlitchyExpression.draw, hlast, GlitchyExpression.nextFrame, Expression.nextFrame]
  split_ifs <;> rfl

/-- C1 witness: frame 2 of 3 is a last frame and the draw restores the snapshot. -/
theorem glitchy_last_frame_restores_witness :
    (glitchyLastFrameGated.draw true).fb.buffer = [⟨0, 0, 0, 0⟩] :=
  glitchy_last_frame_restores glitchyLastFrameGated (by decide)

/-- C1 as stated fails: on the last frame with `shouldAffectBuffer()` false the
buffer keeps its tint instead of the snapshot. -/
theorem glitchy_last_frame_gated_keeps_tint :
    glitchyLastFrameGated.isLastFrame = true ∧
    (glitchyLastFrameGated.draw false).fb.buffer = [⟨200, 10, 10, 0⟩] ∧
    (glitchyLastFrameGated.draw false).fb.buffer ≠ glitchyLastFrameGated.savedBuffer := by
  decide

/-- The scan over the reversed vector stops at the first unacknowledged record: the
records before it are acknowledged and kept, the records after it are kept. -/
theorem acknowledgeFirst_some (l : List BluetoothLampRecord)
    (hun : ∃ r ∈ l, r.acknowledged = false) :
    ∃ pre r post, l = pre ++ r :: post ∧ r.acknowledged = false ∧
      (∀ x ∈ pre, x.acknowledged = true) ∧
      acknowledgeFirst l = some (r, pre ++ { r with acknowledged := true } :: post) := by
  induction l with
  | nil => simp at hun
  | cons a t ih =>
    by_cases ha : a.acknowledged = false
    · exact ⟨[], a, t, by simp, ha, by simp, by simp [acknowledgeFirst, ha]⟩
    · have hat : a.acknowledged = true := by simpa using ha
      have hun2 : ∃ r ∈ t, r.acknowledged = false := by
        obtain ⟨r, hr, hrf⟩ := hun
        rcases List.mem_cons.mp hr with h | h
        · subst h; simp [hat] at hrf
        · exact ⟨r, h, hrf⟩
      obtain ⟨pre, r, post, hl, hr, hpre, hres⟩ := ih hun2
      refine ⟨a :: pre, r, post, by simp [hl], hr, ?_, ?_⟩
      · intro x hx
        rcases List.mem_cons.mp hx with h | h
        · subst h; exact hat
        · exact hpre x h
      · simp [acknowledgeFirst, hat, hres]

/-- C2: with the animation stopped, the timer elapsed and some record unacknowledged,
`control` splits the vector as `before ++ r :: after` where `r` is unacknowledged and
everything after it (discovered later) is acknowledged; it sets the flag of `r` only,
takes the color of `r`, and keeps length, order, names and colors of the vector. -/
theorem social_control_acknowledges_most_recent (ackInterval : Nat) (s : SocialBehavior)
    (now : Nat) (lamps : List BluetoothLampRecord)
    (hstop : s.animationState = AnimationState.STOPPED)
    (htime : now > s.nextAcknowledgeTimeMs)
    (hun : ∃ r ∈ lamps, r.acknowledged = false) :
    ∃ before r after, lamps = before ++ r :: after ∧ r.acknowledged = false ∧
      (∀ x ∈ after, x.acknowledged = true) ∧
      (s.control ackInterval now lamps).2
        = before ++ { r with acknowledged := true } :: after ∧
      (s.control ackInterval now lamps).1.foundLampColor = r.baseColor ∧
      (s.control ackInterval now lamps).2.length = lamps.length ∧
      (s.control ackInterval now lamps).2.map (fun x => x.name)
        = lamps.map (fun x => x.name) ∧
      (s.control ackInterval now lamps).2.map (fun x => x.baseColor)
        = lamps.map (fun x => x.baseColor) := by
  have hrev : ∃ r ∈ lamps.reverse, r.acknowledged = false := by
    obtain ⟨r, hr, hrf⟩ := hun
    exact ⟨r, List.mem_reverse.mpr hr, hrf⟩
  obtain ⟨pre, r, post, hl, hr, hpre, hres⟩ := acknowledgeFirst_some lamps.reverse hrev
  have hlamps : lamps = post.reverse ++ r :: pre.reverse := by
    have h := congrArg List.reverse hl
    simpa using h
  have hctl : s.control ackInterval now lamps
      = (SocialBehavior.playOnce
          { s with
            foundLampColor := r.baseColor
            nextAcknowledgeTimeMs := (now + ackInterval) % U32
            savedBuffer := s.fb.buffer },
          post.reverse ++ { r with acknowledged := true } :: pre.reverse) := by
    simp only [SocialBehavior.control, hstop, htime, hres, and_self, if_true]
    simp
  refine ⟨post.reverse, r, pre.reverse, hlamps, hr, ?_, ?_, ?_, ?_, ?_, ?_⟩
  · intro x hx
    exact hpre x (List.mem_reverse.mp hx)
  · rw [hctl]
  · rw [hctl]; rfl
  · rw [hctl, hlamps]; simp
  · rw [hctl, hlamps]; simp
  · rw [hctl, hlamps]; simp

/-- C2 witness: for `[A unack, B unack]` the call acknowledges `B` and leaves `A`. -/
theorem social_control_acknowledges_most_recent_witness :
    (socialIdle.control 60000 1000 [peerA, peerB]).2
        = [peerA, { peerB with acknowledged := true }] ∧
    ∃ before r after, [peerA, peerB] = before ++ r :: after ∧ r.acknowledged = false ∧
      (∀ x ∈ after, x.acknowledged = true) ∧
      (socialIdle.control 60000 1000 [peerA, peerB]).2
        = before ++ { r with acknowledged := true } :: after ∧
      (socialIdle.control 60000 1000 [peerA, peerB]).1.foundLampColor = r.baseColor ∧
      (socialIdle.control 60000 1000 [peerA, peerB]).2.length = [peerA, peerB].length ∧
      (socialIdle.control 60000 1000 [peerA, peerB]).2.map (fun x => x.name)
        = [peerA, peerB].map (fun x => x.name) ∧
      (socialIdle.control 60000 1000 [peerA, peerB]).2.map (fun x => x.baseColor)
        = [peerA, peerB].map (fun x => x.baseColor) :=
  ⟨by decide,
   social_control_acknowledges_most_recent 60000 socialIdle 1000 [peerA, peerB]
    (by decide) (by decide) ⟨peerA, by decide, by decide⟩⟩

/-- The bookkeeping step never touches the frame buffer. -/
theorem Expression.nextFrame_fb (e : Expression) : e.nextFrame.fb = e.fb := by
  unfold Expression.nextFrame
  simp only
  split_ifs <;> rfl

/-- C3: the rate limit is lost when `millis() + LAMP_TIME_BETWEEN_ACKNOWLEDGEMENT_MS`
wraps. At clock value `2^32 - 1000` the call acknowledges `B` and stores the wrapped
deadline 59000; after the three frames of the playback the animation is stopped again,
and the call 500 ms later, inside the interval, acknowledges `A`. -/
theorem social_rate_limit_lost_at_clock_wrap :
    (socialIdle.control 60000 4294966296 [peerA, peerB]).2
        = [peerA, { peerB with acknowledged := true }] ∧
    (socialIdle.control 60000 4294966296 [peerA, peerB]).1.nextAcknowledgeTimeMs = 59000 ∧
    ((((socialIdle.control 60000 4294966296 [peerA, peerB]).1.draw fadeLinear).draw
        fadeLinear).draw fadeLinear).animationState = AnimationState.STOPPED ∧
    4294966296 ≤ 4294966796 ∧ 4294966796 ≤ 4294966296 + 60000 ∧ 4294966796 < U32 ∧
    (((((socialIdle.control 60000 4294966296 [peerA, peerB]).1.draw fadeLinear).draw
        fadeLinear).draw fadeLinear).control 60000 4294966796
        (socialIdle.control 60000 4294966296 [peerA, peerB]).2).2
        = [{ peerA with acknowledged := true }, { peerB with acknowledged := true }] := by
  decide

/-- As long as the deadline `now + ackInterval` does not wrap, a call made at a clock
value up to the deadline changes neither the behaviour nor the records. -/
theorem social_control_rate_limited (ackInterval : Nat) (s : SocialBehavior) (t t2 : Nat)
    (lamps : List BluetoothLampRecord)
    (hdeadline : s.nextAcknowledgeTimeMs = (t + ackInterval) % U32)
    (hnowrap : t + ackInterval < U32) (hle : t2 ≤ t + ackInterval) :
    s.control ackInterval t2 lamps = (s, lamps) := by
  have hnot : ¬ (t2 > s.nextAcknowledgeTimeMs) := by
    rw [hdeadline, Nat.mod_eq_of_lt hnowrap]
    omega
  simp [SocialBehavior.control, hnot]

/-- Once the stored deadline has wrapped (`t + ackInterval ≥ 2^32`), every call made at
a clock value from `t` on with the animation stopped acknowledges a record, for every
value of the interval constant. -/
theorem social_control_after_wrapped_deadline (ackInterval : Nat) (s : SocialBehavior)
    (t t2 : Nat) (lamps : List BluetoothLampRecord)
    (hstop : s.animationState = AnimationState.STOPPED)
    (hdeadline : s.nextAcknowledgeTimeMs = (t + ackInterval) % U32)
    (hwrap : U32 ≤ t + ackInterval) (ht : t < U32) (hint : ackInterval < U32)
    (hle : t ≤ t2) (hun : ∃ r ∈ lamps, r.acknowledged = false) :
    ∃ before r after, lamps = before ++ r :: after ∧ r.acknowledged = false ∧
      (s.control ackInterval t2 lamps).2
        = before ++ { r with acknowledged := true } :: after := by
  have htime : t2 > s.nextAcknowledgeTimeMs := by
    have hlt : t + ackInterval - U32 < U32 := by omega
    have hmod : (t + ackInterval) % U32 = t + ackInterval - U32 := by
      rw [Nat.mod_eq_sub_mod hwrap]
      exact Nat.mod_eq_of_lt hlt
    rw [hdeadline, hmod]
    omega
  have hrev : ∃ r ∈ lamps.reverse, r.acknowledged = false := by
    obtain ⟨r, hr, hrf⟩ := hun
    exact ⟨r, List.mem_reverse.mpr hr, hrf⟩
  obtain ⟨pre, r, post, hl, hr, _, hres⟩ := acknowledgeFirst_some lamps.reverse hrev
  have hlamps : lamps = post.reverse ++ r :: pre.reverse := by
    have h := congrArg List.reverse hl
    simpa using h
  refine ⟨post.reverse, r, pre.reverse, hlamps, hr, ?_⟩
  simp only [SocialBehavior.control, hstop, htime, hres, and_self, if_true]
  simp

/-- On a final tick that lies in the ease-out branch (`easeFrames ≤ frame` and
`frame > frames - easeFrames`), every pixel of the strip receives its snapshot value,
whatever the easing function and the peer color are. -/
theorem social_final_tick_restores_in_ease_out (fade : Color → Color → Nat → Nat → Color)
    (s : SocialBehavior) (hlast : s.isLastFrame = true)
    (hin : s.easeFrames ≤ s.frame) (hout : subU32 s.frames s.easeFrames < s.frame)
    (i : Nat) (hi : i < s.fb.pixelCount.toNat) (hb : i < s.fb.buffer.length)
    (hs : i < s.savedBuffer.length) :
    (s.draw fade).fb.buffer[i]? = s.savedBuffer[i]? := by
  have hpix : s.drawPixel fade i = s.savedBuffer[i]?.getD default := by
    unfold SocialBehavior.drawPixel
    rw [if_neg (not_lt.mpr hin), if_pos hout, if_pos hlast]
  simp only [SocialBehavior.draw, SocialBehavior.nextFrame, Expression.nextFrame_fb]
  rw [forPixels_getElem?, if_pos hi, hpix]
  simp [List.getElem?_eq_getElem hb, List.getElem?_eq_getElem hs]

/-- Frame 9 of 10 with `easeFrames = 3` lies in the ease-out branch and restores pixel 1. -/
theorem social_final_tick_restores_in_ease_out_witness :
    socialFinalTick.isLastFrame = true ∧
    (socialFinalTick.draw fadeLinear).fb.buffer[1]? = socialFinalTick.savedBuffer[1]? :=
  ⟨by decide,
   social_final_tick_restores_in_ease_out fadeLinear socialFinalTick (by decide) (by decide)
    (by decide) 1 (by decide) (by decide) (by decide)⟩

/-- C4: the final tick does not always write the snapshot. On the final tick (frame 9
of 10) with `easeFrames = 1` the ease-out test `frame > frames - easeFrames` is false, so
the last-frame write nested under it is not reached and every pixel receives the peer
color, not its snapshot value; the same happens with `easeFrames = 0`. -/
theorem social_final_tick_writes_peer_color :
    socialFinalTickEaseOne.isLastFrame = true ∧
    (socialFinalTickEaseOne.draw fadeLinear).fb.buffer
      = [socialFinalTickEaseOne.foundLampColor, socialFinalTickEaseOne.foundLampColor] ∧
    (socialFinalTickEaseOne.draw fadeLinear).fb.buffer[0]?
      ≠ socialFinalTickEaseOne.savedBuffer[0]? ∧
    socialFinalTickNoEase.isLastFrame = true ∧
    (socialFinalTickNoEase.draw fadeLinear).fb.buffer
      = [socialFinalTickNoEase.foundLampColor, socialFinalTickNoEase.foundLampColor] ∧
    (socialFinalTickNoEase.draw fadeLinear).fb.buffer[0]?
      ≠ socialFinalTickNoEase.savedBuffer[0]? := by
  decide

/-- On the tick `frame = frames - 1` the ease-out branch of `SocialBehavior::draw` is
taken exactly when `2 ≤ easeFrames < frames`. -/
theorem social_final_tick_in_ease_out_iff (s : SocialBehavior) (hframes : s.frames < U32)
    (hease : s.easeFrames < U32) (hfinal : s.frame + 1 = s.frames) :
    (s.easeFrames ≤ s.frame ∧ subU32 s.frames s.easeFrames < s.frame)
      ↔ (2 ≤ s.easeFrames ∧ s.easeFrames < s.frames) := by
  unfold subU32
  rw [Nat.mod_eq_of_lt hease]
  unfold U32 at *
  omega

/-- On the last frame of a fade back `onUpdate` moves the effect to `IDLE` before `draw`
runs, so the tick draws nothing: the buffer keeps what the frame before has left. -/
theorem shifty_fade_back_last_tick_draws_nothing (s : ShiftyExpression) (now : Nat)
    (hstate : s.state = ShiftyState.FADING_BACK) (hlast : s.isLastFrame = true) :
    (s.tick now).fb.buffer = s.fb.buffer ∧ (s.tick now).state = ShiftyState.IDLE := by
  simp [ShiftyExpression.tick, ShiftyExpression.onUpdate, hstate, hlast,
    ShiftyExpression.draw, ShiftyExpression.nextFrame, Expression.nextFrame_fb]

/-- C5: the last frame of a fade back does not render the fade target. The tick at
frame 28 of 30 draws the interpolated value 17; the tick at frame 29, the last frame,
leaves 17 in the buffer although the target (the snapshot) is 0, and ends the cycle. -/
theorem shifty_fade_back_last_frame_keeps_residue :
    shiftyFadingBack.tick 400000 = shiftyFadingBackLast ∧
    shiftyFadingBackLast.state = ShiftyState.FADING_BACK ∧
    shiftyFadingBackLast.isLastFrame = true ∧
    shiftyFadingBackLast.fadeTargetColors = shiftyFadingBackLast.savedBuffer ∧
    (shiftyFadingBackLast.tick 400033).fb.buffer = [⟨17, 17, 17, 17⟩] ∧
    (shiftyFadingBackLast.tick 400033).fb.buffer ≠ shiftyFadingBackLast.savedBuffer ∧
    (shiftyFadingBackLast.tick 400033).state = ShiftyState.IDLE ∧
    (shiftyFadingBackLast.tick 400033).animationState = AnimationState.STOPPED := by
  decide

/-- C6: `onComplete` passes exactly one name, "glitchy", to the manager when the
sub-state is `IDLE` and a manager exists; in every other sub-state, and without a
manager, it makes no trigger call. -/
theorem shifty_onComplete_triggers_glitchy_iff_idle (s : ShiftyExpression) (m : Bool) :
    (s.state = ShiftyState.IDLE → s.onComplete true = ["glitchy"]) ∧
    (s.state = ShiftyState.FADING_TO_PALETTE ∨ s.state = ShiftyState.SHIFTED ∨
        s.state = ShiftyState.FADING_BACK → s.onComplete m = []) ∧
    s.onComplete false = [] := by
  refine ⟨?_, ?_, ?_⟩
  · intro h
    simp [ShiftyExpression.onComplete, h]
  · intro h
    rcases h with h | h | h <;> simp [ShiftyExpression.onComplete, h]
  · simp [ShiftyExpression.onComplete]

/-- C6 witness: the effect that has just finished its fade back triggers "glitchy"
once; the effect still fading back triggers nothing. -/
theorem shifty_onComplete_triggers_glitchy_iff_idle_witness :
    (shiftyFadingBackLast.tick 400033).state = ShiftyState.IDLE ∧
    (shiftyFadingBackLast.tick 400033).onComplete true = ["glitchy"] ∧
    shiftyFadingBackLast.state = ShiftyState.FADING_BACK ∧
    shiftyFadingBackLast.onComplete true = [] :=
  ⟨by decide,
   (shifty_onComplete_triggers_glitchy_iff_idle (shiftyFadingBackLast.tick 400033) true).1
    (by decide),
   by decide,
   (shifty_onComplete_triggers_glitchy_iff_idle shiftyFadingBackLast true).2.1
    (Or.inr (Or.inr (by decide)))⟩

/-- C7: a `draw()` of the breathing, pulse or shifty effect with `shouldPause()` true
leaves every pixel of the frame buffer as it was. -/
theorem paused_draw_leaves_pixels (cos : ℚ → ℚ) (PI : ℚ) (b : BreathingExpression)
    (p : PulseExpression) (s : ShiftyExpression) (affect : Bool) (now : Nat) :
    (b.draw cos PI true affect).fb.buffer = b.fb.buffer ∧
    (p.draw true affect now).fb.buffer = p.fb.buffer ∧
    (s.draw true affect).fb.buffer = s.fb.buffer := by
  simp [BreathingExpression.draw, PulseExpression.draw, ShiftyExpression.draw]

/-- C8 (amended): a `draw()` of the breathing, pulse or shifty effect with
`shouldPause()` true returns at once: neither the pixels nor the frame bookkeeping
change, no `nextFrame()` step is made. -/
theorem paused_draw_is_identity (cos : ℚ → ℚ) (PI : ℚ) (b : BreathingExpression)
    (p : PulseExpression) (s : ShiftyExpression) (affect : Bool) (now : Nat) :
    b.draw cos PI true affect = b ∧
    p.draw true affect now = p ∧
    s.draw true affect = s := by
  simp [BreathingExpression.draw, PulseExpression.draw, ShiftyExpression.draw]

/-- C8 as stated fails: a paused `draw()` at frame 5 (breathing, pulse) or 28 (shifty)
leaves `frame` where it was, while a `nextFrame()` step moves it to 6 or 29. -/
theorem paused_draw_makes_no_nextFrame_step :
    (breathingPlaying.draw (fun _ => 1) 3 true true).frame = 5 ∧
    breathingPlaying.nextFrame.frame = 6 ∧
    (pulsePlaying.draw true true 1033).frame = 5 ∧
    pulsePlaying.nextFrame.frame = 6 ∧
    (shiftyFadingBack.draw true true).frame = 28 ∧
    shiftyFadingBack.nextFrame.frame = 29 := by
  decide

/-- C9: a `draw()` of the glitchy effect, or an unpaused `draw()` of the shifty or
breathing effect, with `shouldAffectBuffer()` false is exactly one `nextFrame()` step and
leaves every pixel of the frame buffer as it was. -/
theorem gated_draw_is_one_nextFrame_step (cos : ℚ → ℚ) (PI : ℚ) (g : GlitchyExpression)
    (s : ShiftyExpression) (b : BreathingExpression) :
    (g.draw false = g.nextFrame ∧ (g.draw false).fb.buffer = g.fb.buffer) ∧
    (s.draw false false = s.nextFrame ∧ (s.draw false false).fb.buffer = s.fb.buffer) ∧
    (b.draw cos PI false false = b.nextFrame ∧
      (b.draw cos PI false false).fb.buffer = b.fb.buffer) := by
  simp [GlitchyExpression.draw, ShiftyExpression.draw, BreathingExpression.draw,
    GlitchyExpression.nextFrame, ShiftyExpression.nextFrame, BreathingExpression.nextFrame,
    Expression.nextFrame_fb]

/-- C10 (amended): while the pulse is PLAYING or PLAYING_ONCE, a `draw()` with
`shouldAffectBuffer()` false leaves every pixel of the frame buffer as it was, for
every wave position. -/
theorem pulse_gated_draw_leaves_pixels_while_playing (p : PulseExpression)
    (paused : Bool) (now : Nat) (hplay : p.animationState ≠ AnimationState.STOPPED) :
    (p.draw paused false now).fb.buffer = p.fb.buffer := by
  cases paused <;> simp [PulseExpression.draw, hplay]

/-- C10 witness: the playing pulse whose wave sits on pixel 0 draws nothing when gated. -/
theorem pulse_gated_draw_leaves_pixels_while_playing_witness :
    pulsePlaying.animationState ≠ AnimationState.STOPPED ∧
    (pulsePlaying.draw false false 1033).fb.buffer = pulsePlaying.fb.buffer :=
  ⟨by decide, pulse_gated_draw_leaves_pixels_while_playing pulsePlaying false 1033 (by decide)⟩

/-- The buffer a stopped pulse draws while its wave is still on the way, when the call
to `updateWavePosition` leaves the wave where it is: every pixel with a positive blend
factor is blended toward the pulse color, whatever `shouldAffectBuffer()` returns. -/
theorem pulse_draw_stopped_buffer (p : PulseExpression) (affect : Bool) (now : Nat)
    (hstop : p.animationState = AnimationState.STOPPED)
    (hin : p.wavePosition ≤ (p.stripEnd : ℚ))
    (hupd : p.updateWavePosition now = p) :
    (p.draw false affect now).fb.buffer
      = forPixels p.fb.pixelCount.toNat
          (fun i c => if p.calculateBlendFactor (i : Int) > 0 then
            fadeLinear c p.pulseColor 100 (p.calculateBlendFactor (i : Int)) else c)
          p.fb.buffer := by
  have hnf : ∀ q : PulseExpression, q.nextFrame.fb = q.fb := fun q => by
    simp [PulseExpression.nextFrame, Expression.nextFrame_fb]
  unfold PulseExpression.draw
  simp only [hstop, hin, hupd, and_self, if_true, ne_eq, not_true_eq_false, and_false,
    if_false, Bool.false_eq_true]
  split_ifs <;> simp [hnf, PulseExpression.stop]

/-- C10 as stated fails twice. Gated and PLAYING, the draw makes no `nextFrame()` step
(frame stays 5). Gated and STOPPED, the draw still renders the wave: pixel 0, under the
wave center, turns from black to the pulse color. -/
theorem pulse_gated_draw_counterexample :
    (pulsePlaying.draw false false 1033).frame = 5 ∧
    pulsePlaying.nextFrame.frame = 6 ∧
    pulseStopped.animationState = AnimationState.STOPPED ∧
    pulseStopped.fb.buffer[0]? = some ⟨0, 0, 0, 0⟩ ∧
    (pulseStopped.draw false false 1000).fb.buffer[0]? = some ⟨255, 255, 255, 255⟩ := by
  have h1 : pulseStopped.updateWavePosition 1000 = pulseStopped := by
    simp [PulseExpression.updateWavePosition, pulseStopped, pulsePlaying, subU32, U32]
  have h2 : pulseStopped.calculateBlendFactor ((0 : Nat) : Int) = 100 := by
    simp [PulseExpression.calculateBlendFactor, pulseStopped, pulsePlaying]
  have h3 : pulseStopped.wavePosition ≤ (pulseStopped.stripEnd : ℚ) := by
    simp [PulseExpression.stripEnd, pulseStopped, pulsePlaying]
  refine ⟨by decide, by decide, by decide, by decide, ?_⟩
  rw [pulse_draw_stopped_buffer pulseStopped false 1000 rfl h3 h1, forPixels_getElem?, h2]
  decide

/-- C11 (amended): `configureFromParameters` keeps a duration that lies in 1..60 and
replaces any other value by the default (1 for the minimum, 3 for the maximum), absent
keys counting as 1 and 3; the maximum is then raised to the minimum. When both values lie
in 1..60 the result is the clamp formula of the specification. -/
theorem glitchy_configure_validates_durations (g : GlitchyExpression)
    (parameters : String → Option Nat) :
    (g.configureFromParameters parameters).glitchDurationMin
      = (if 1 ≤ (parameters "durationMin").getD 1 ∧ (parameters "durationMin").getD 1 ≤ 60
          then (parameters "durationMin").getD 1 else 1) ∧
    (g.configureFromParameters parameters).glitchDurationMax
      = max (if 1 ≤ (parameters "durationMax").getD 3 ∧ (parameters "durationMax").getD 3 ≤ 60
          then (parameters "durationMax").getD 3 else 3)
          (g.configureFromParameters parameters).glitchDurationMin ∧
    (1 ≤ (parameters "durationMin").getD 1 ∧ (parameters "durationMin").getD 1 ≤ 60 →
      1 ≤ (parameters "durationMax").getD 3 ∧ (parameters "durationMax").getD 3 ≤ 60 →
      (g.configureFromParameters parameters).glitchDurationMin
        = specGlitchDurationMin parameters ∧
      (g.configureFromParameters parameters).glitchDurationMax
        = specGlitchDurationMax parameters) := by
  simp only [GlitchyExpression.configureFromParameters, specGlitchDurationMin,
    specGlitchDurationMax, specClampDuration]
  generalize (parameters "durationMin").getD 1 = a
  generalize (parameters "durationMax").getD 3 = b
  refine ⟨?_, ?_, ?_⟩
  · split_ifs <;> first | rfl | omega
  · split_ifs <;> omega
  · intro ha hb
    split_ifs <;> omega

/-- C11 witness: `durationMin = 5`, `durationMax = 2` lie in 1..60; the result is the
range 5..5, as the clamp formula gives. -/
theorem glitchy_configure_validates_durations_witness :
    (glitchyLastFrameGated.configureFromParameters paramsDurationInverted).glitchDurationMin
      = 5 ∧
    (glitchyLastFrameGated.configureFromParameters paramsDurationInverted).glitchDurationMax
      = 5 ∧
    (glitchyLastFrameGated.configureFromParameters paramsDurationInverted).glitchDurationMin
        = specGlitchDurationMin paramsDurationInverted ∧
    (glitchyLastFrameGated.configureFromParameters paramsDurationInverted).glitchDurationMax
        = specGlitchDurationMax paramsDurationInverted :=
  ⟨by decide, by decide,
   (glitchy_configure_validates_durations glitchyLastFrameGated paramsDurationInverted).2.2
    (by decide) (by decide)⟩

/-- C11 as stated fails: for `durationMin = 100` the code stores the minimum 1, while
`clamp(100, 1, 60)` is 60; the stored maximum is 3, while the claim's formula gives 60. -/
theorem glitchy_configure_out_of_range_becomes_default :
    (glitchyLastFrameGated.configureFromParameters paramsDurationMinTooLarge).glitchDurationMin
      = 1 ∧
    specGlitchDurationMin paramsDurationMinTooLarge = 60 ∧
    (glitchyLastFrameGated.configureFromParameters paramsDurationMinTooLarge).glitchDurationMax
      = 3 ∧
    specGlitchDurationMax paramsDurationMinTooLarge = 60 := by
  decide

/-- C12: after `configureFromParameters` the stored range satisfies
`1 ≤ glitchDurationMin ≤ glitchDurationMax ≤ 60`, whatever the map holds. -/
theorem glitchy_configure_range_invariant (g : GlitchyExpression)
    (parameters : String → Option Nat) :
    1 ≤ (g.configureFromParameters parameters).glitchDurationMin ∧
    (g.configureFromParameters parameters).glitchDurationMin
      ≤ (g.configureFromParameters parameters).glitchDurationMax ∧
    (g.configureFromParameters parameters).glitchDurationMax ≤ 60 := by
  simp only [GlitchyExpression.configureFromParameters]
  generalize (parameters "durationMin").getD 1 = a
  generalize (parameters "durationMax").getD 3 = b
  refine ⟨?_, ?_, ?_⟩ <;> split_ifs <;> omega

/-- C13: the shifty hold range is not normalised. With `shiftDurationMin = 600` and
`shiftDurationMax = 300` the stored range is 600000..300000, and `getRandomShiftDuration`
asks the generator for that inverted range; with `shiftDurationMin = 1` and
`shiftDurationMax = 4294968` the conversion to milliseconds wraps and inverts an ordered
pair to 1000..704. -/
theorem shifty_configure_keeps_inverted_range :
    (shiftyFadingBack.configureFromParameters paramsShiftInverted true).shiftDurationMinMs
      = 600000 ∧
    (shiftyFadingBack.configureFromParameters paramsShiftInverted true).shiftDurationMaxMs
      = 300000 ∧
    (∀ dist : Nat → Nat → Nat,
      (shiftyFadingBack.configureFromParameters paramsShiftInverted true).getRandomShiftDuration
        dist = dist 600000 300000) ∧
    (shiftyFadingBack.configureFromParameters paramsShiftOverflow true).shiftDurationMinMs
      = 1000 ∧
    (shiftyFadingBack.configureFromParameters paramsShiftOverflow true).shiftDurationMaxMs
      = 704 := by
  refine ⟨by decide, by decide, fun dist => ?_, by decide, by decide⟩
  have hmin :
      (shiftyFadingBack.configureFromParameters paramsShiftInverted true).shiftDurationMinMs
        = 600000 := by decide
  have hmax :
      (shiftyFadingBack.configureFromParameters paramsShiftInverted true).shiftDurationMaxMs
        = 300000 := by decide
  rw [ShiftyExpression.getRandomShiftDuration, hmin, hmax]

/-- When the configured pair is ordered and the conversion to milliseconds does not
wrap, the stored hold range is ordered. -/
theorem shifty_configure_range_ordered (s : ShiftyExpression)
    (parameters : String → Option Nat) (hasFrameBuffer : Bool)
    (hle : (parameters "shiftDurationMin").getD 300 ≤ (parameters "shiftDurationMax").getD 600)
    (hmax : (parameters "shiftDurationMax").getD 600 * 1000 < U32) :
    (s.configureFromParameters parameters hasFrameBuffer).shiftDurationMinMs
      ≤ (s.configureFromParameters parameters hasFrameBuffer).shiftDurationMaxMs := by
  have hmin : (parameters "shiftDurationMin").getD 300 * 1000 < U32 := by omega
  have hgoal : (parameters "shiftDurationMin").getD 300 * 1000 % U32
      ≤ (parameters "shiftDurationMax").getD 600 * 1000 % U32 := by
    rw [Nat.mod_eq_of_lt hmin, Nat.mod_eq_of_lt hmax]
    omega
  unfold ShiftyExpression.configureFromParameters
  simp only
  split_ifs <;> exact hgoal

/-- The blend factor never exceeds 100. -/
theorem pulse_blend_factor_le_100 (p : PulseExpression) (pixelIndex : Int) :
    p.calculateBlendFactor pixelIndex ≤ 100 := by
  unfold PulseExpression.calculateBlendFactor
  simp only
  split_ifs with h1 h2
  · omega
  · omega
  · have hn : 0 ≤ |(pixelIndex : ℚ) - p.wavePosition| / (p.pulseWidth : ℚ)
        * (|(pixelIndex : ℚ) - p.wavePosition| / (p.pulseWidth : ℚ)) := mul_self_nonneg _
    have hf : max 0 (1 - |(pixelIndex : ℚ) - p.wavePosition| / (p.pulseWidth : ℚ)
        * (|(pixelIndex : ℚ) - p.wavePosition| / (p.pulseWidth : ℚ))) * 100 ≤ (100 : ℚ) := by
      have hmax : max 0 (1 - |(pixelIndex : ℚ) - p.wavePosition| / (p.pulseWidth : ℚ)
          * (|(pixelIndex : ℚ) - p.wavePosition| / (p.pulseWidth : ℚ))) ≤ (1 : ℚ) :=
        max_le (by norm_num) (by linarith)
      linarith
    have hfloor : ⌊max 0 (1 - |(pixelIndex : ℚ) - p.wavePosition| / (p.pulseWidth : ℚ)
        * (|(pixelIndex : ℚ) - p.wavePosition| / (p.pulseWidth : ℚ))) * 100⌋ ≤ (100 : Int) := by
      have h := Int.floor_le_floor hf
      simpa using h
    omega

/-- C14: `calculateBlendFactor` is exactly 100 when the distance between the pixel and
the wave center is 0, and exactly 0 when that distance exceeds `pulseWidth`. -/
theorem pulse_blend_factor_center_and_outside (p : PulseExpression) (pixelIndex : Int) :
    (|(pixelIndex : ℚ) - p.wavePosition| = 0 → p.calculateBlendFactor pixelIndex = 100) ∧
    (|(pixelIndex : ℚ) - p.wavePosition| > (p.pulseWidth : ℚ) →
      p.calculateBlendFactor pixelIndex = 0) := by
  constructor
  · intro h
    unfold PulseExpression.calculateBlendFactor
    simp only [h]
    have hw : ¬ ((0 : ℚ) > (p.pulseWidth : ℚ)) := not_lt.mpr (Nat.cast_nonneg _)
    rw [if_neg hw, if_pos (by norm_num)]
  · intro h
    unfold PulseExpression.calculateBlendFactor
    simp only
    rw [if_pos h]

/-- C14 witness: with the wave center on pixel 0 and `pulseWidth = 15`, pixel 0 is
blended at 100 and pixel 16 at 0. -/
theorem pulse_blend_factor_center_and_outside_witness :
    pulsePlaying.calculateBlendFactor 0 = 100 ∧ pulsePlaying.calculateBlendFactor 16 = 0 :=
  ⟨(pulse_blend_factor_center_and_outside pulsePlaying 0).1
      (by simp [pulsePlaying]),
   (pulse_blend_factor_center_and_outside pulsePlaying 16).2
      (by norm_num [pulsePlaying])⟩

/-- C15: for a fixed `pulseWidth`, a pixel at least as far from the wave center as
another one never gets the larger blend factor. -/
theorem pulse_blend_factor_antitone (p : PulseExpression) (w1 w2 : ℚ) (i j : Int)
    (hd : |(i : ℚ) - w1| ≤ |(j : ℚ) - w2|) :
    PulseExpression.calculateBlendFactor { p with wavePosition := w2 } j
      ≤ PulseExpression.calculateBlendFactor { p with wavePosition := w1 } i := by
  have hle := pulse_blend_factor_le_100 { p with wavePosition := w2 } j
  unfold PulseExpression.calculateBlendFactor at hle ⊢
  simp only at hle ⊢
  generalize |(i : ℚ) - w1| = d1 at hd ⊢
  generalize |(j : ℚ) - w2| = d2 at hd hle ⊢
  by_cases h2 : d2 > (p.pulseWidth : ℚ)
  · rw [if_pos h2]
    exact Nat.zero_le _
  · have h1 : ¬ d1 > (p.pulseWidth : ℚ) := fun h => h2 (lt_of_lt_of_le h hd)
    rw [if_neg h1]
    by_cases hc1 : d1 < 1 / 2
    · rw [if_pos hc1]
      exact hle
    · have hc2 : ¬ d2 < 1 / 2 := fun h => hc1 (lt_of_le_of_lt hd h)
      rw [if_neg h2, if_neg hc1, if_neg hc2]
      have hd1 : (0 : ℚ) ≤ d1 := by linarith [not_lt.mp hc1]
      have hW : (0 : ℚ) ≤ (p.pulseWidth : ℚ) := Nat.cast_nonneg _
      have hn : d1 / (p.pulseWidth : ℚ) ≤ d2 / (p.pulseWidth : ℚ) :=
        div_le_div_of_nonneg_right hd hW
      have hn1 : 0 ≤ d1 / (p.pulseWidth : ℚ) := div_nonneg hd1 hW
      have hsq : d1 / (p.pulseWidth : ℚ) * (d1 / (p.pulseWidth : ℚ))
          ≤ d2 / (p.pulseWidth : ℚ) * (d2 / (p.pulseWidth : ℚ)) :=
        mul_self_le_mul_self hn1 hn
      have hf : max 0 (1 - d2 / (p.pulseWidth : ℚ) * (d2 / (p.pulseWidth : ℚ))) * 100
          ≤ max 0 (1 - d1 / (p.pulseWidth : ℚ) * (d1 / (p.pulseWidth : ℚ))) * 100 := by
        have hm : max 0 (1 - d2 / (p.pulseWidth : ℚ) * (d2 / (p.pulseWidth : ℚ)))
            ≤ max 0 (1 - d1 / (p.pulseWidth : ℚ) * (d1 / (p.pulseWidth : ℚ))) :=
          max_le_max le_rfl (by linarith)
        linarith
      exact Int.toNat_le_toNat (Int.floor_le_floor hf)

/-- C15 witness: with `pulseWidth = 15`, pixel 3 of a wave centered at 0 is at distance 3
and pixel 12 of a wave centered at 5 at distance 7; the second factor is not larger. -/
theorem pulse_blend_factor_antitone_witness :
    PulseExpression.calculateBlendFactor { pulsePlaying with wavePosition := 5 } 12
      ≤ PulseExpression.calculateBlendFactor { pulsePlaying with wavePosition := 0 } 3 :=
  pulse_blend_factor_antitone pulsePlaying 0 5 3 12 (by norm_num)

/-- The palette is not changed by the color step. -/
theorem BreathingExpression.advanceColor_colors (b : BreathingExpression) :
    b.advanceColor.colors = b.colors := by
  unfold BreathingExpression.advanceColor
  simp only
  split_ifs <;> rfl

/-- The color step keeps the palette index inside the palette. -/
theorem BreathingExpression.advanceColor_index_lt (b : BreathingExpression)
    (hidx : b.currentColorIndex < b.colors.length) :
    b.advanceColor.currentColorIndex < b.colors.length := by
  unfold BreathingExpression.advanceColor
  simp only
  have hmod : (b.currentColorIndex + 1) % U32 ≤ b.currentColorIndex + 1 := Nat.mod_le _ _
  split_ifs <;> (try simp only) <;> omega

/-- The palette is not changed by `updateBreathPhase`. -/
theorem BreathingExpression.updateBreathPhase_colors (b : BreathingExpression) (now : Nat) :
    (b.updateBreathPhase now).colors = b.colors := by
  unfold BreathingExpression.updateBreathPhase
  simp only
  split_ifs
  · rfl
  · simp [BreathingExpression.advanceColor_colors]
  · rfl

/-- One call of `updateBreathPhase` keeps the palette index inside the palette. -/
theorem BreathingExpression.updateBreathPhase_index_lt (b : BreathingExpression) (now : Nat)
    (hidx : b.currentColorIndex < b.colors.length) :
    (b.updateBreathPhase now).currentColorIndex < b.colors.length := by
  unfold BreathingExpression.updateBreathPhase
  simp only
  split_ifs
  · exact hidx
  · exact BreathingExpression.advanceColor_index_lt _ hidx
  · exact hidx

/-- Any number of calls of `updateBreathPhase` keeps the palette and an index inside it. -/
theorem BreathingExpression.updates_index_lt (ts : List Nat) (b : BreathingExpression)
    (hidx : b.currentColorIndex < b.colors.length) :
    (ts.foldl BreathingExpression.updateBreathPhase b).colors = b.colors ∧
    (ts.foldl BreathingExpression.updateBreathPhase b).currentColorIndex < b.colors.length := by
  induction ts generalizing b with
  | nil => exact ⟨rfl, hidx⟩
  | cons t rest ih =>
    have hstep := BreathingExpression.updateBreathPhase_index_lt b t hidx
    have hcol := BreathingExpression.updateBreathPhase_colors b t
    have h := ih (b.updateBreathPhase t) (by rw [hcol]; exact hstep)
    rw [hcol] at h
    exact h

/-- C16: for a non-empty palette, `updateBreathPhase` keeps `currentColorIndex` below
`colors.size()` for every clock value and both directions; after `onTrigger` the index
is 0 and stays below `colors.size()` through any sequence of updates. -/
theorem breathing_color_index_in_bounds (b : BreathingExpression) (hne : b.colors ≠ []) :
    (∀ now : Nat, b.currentColorIndex < b.colors.length →
      (b.updateBreathPhase now).currentColorIndex
        < (b.updateBreathPhase now).colors.length) ∧
    b.onTrigger.currentColorIndex = 0 ∧
    (∀ ts : List Nat,
      (ts.foldl BreathingExpression.updateBreathPhase b.onTrigger).currentColorIndex
        < (ts.foldl BreathingExpression.updateBreathPhase b.onTrigger).colors.length) := by
  have hpos : 0 < b.colors.length := List.length_pos.mpr hne
  refine ⟨?_, rfl, ?_⟩
  · intro now hidx
    rw [BreathingExpression.updateBreathPhase_colors]
    exact BreathingExpression.updateBreathPhase_index_lt b now hidx
  · intro ts
    have htrig : b.onTrigger.currentColorIndex < b.onTrigger.colors.length := hpos
    have h := BreathingExpression.updates_index_lt ts b.onTrigger htrig
    rw [h.1]
    exact h.2

/-- C16 witness: a palette of two colors, triggered and updated five times. -/
theorem breathing_color_index_in_bounds_witness :
    breathingTwoColors.colors ≠ [] ∧
    ([1000, 11000, 21000, 31000, 41000].foldl BreathingExpression.updateBreathPhase
        breathingTwoColors.onTrigger).currentColorIndex
      < ([1000, 11000, 21000, 31000, 41000].foldl BreathingExpression.updateBreathPhase
          breathingTwoColors.onTrigger).colors.length :=
  ⟨by decide,
   (breathing_color_index_in_bounds breathingTwoColors (by decide)).2.2
    [1000, 11000, 21000, 31000, 41000]⟩

/-- The intensity for any cosine with `cos 0 = 1`, `cos PI = -1` and values in
`[-1, 1]`: 0 at phase 0, 100 at phase 1/2, at most 100 everywhere. -/
theorem breathIntensity_of_cosine {K : Type} [LinearOrderedField K] [FloorRing K]
    (cos : K → K) (PI : K) (h0 : cos 0 = 1) (hpi : cos PI = -1)
    (hrange : ∀ x, -1 ≤ cos x ∧ cos x ≤ 1) :
    breathIntensity cos PI 0 = 0 ∧ breathIntensity cos PI (1 / 2) = 100 ∧
    ∀ phase, breathIntensity cos PI phase ≤ 100 := by
  refine ⟨?_, ?_, ?_⟩
  · unfold breathIntensity
    have harg : (0 : K) * 2 * PI = 0 := by ring
    rw [harg, h0]
    have hval : ((1 : K) / 2 - 1 / 2 * 1) * 100 = 0 := by ring
    rw [hval]
    simp
  · unfold breathIntensity
    have harg : (1 : K) / 2 * 2 * PI = PI := by ring
    rw [harg, hpi]
    have hval : ((1 : K) / 2 - 1 / 2 * -1) * 100 = ((100 : Nat) : K) := by
      push_cast
      ring
    rw [hval, Int.floor_natCast]
    decide
  · intro phase
    unfold breathIntensity
    have hc := (hrange (phase * 2 * PI)).1
    have hle : ((1 : K) / 2 - 1 / 2 * cos (phase * 2 * PI)) * 100 ≤ ((100 : Int) : K) := by
      push_cast
      linarith
    have hfloor : ⌊((1 : K) / 2 - 1 / 2 * cos (phase * 2 * PI)) * 100⌋ ≤ 100 :=
      Int.floor_le_floor hle |>.trans (by rw [Int.floor_intCast])
    have hnat : ⌊((1 : K) / 2 - 1 / 2 * cos (phase * 2 * PI)) * 100⌋.toNat ≤ 100 := by
      omega
    exact (Nat.mod_le _ _).trans hnat

/-- The pixels `BreathingExpression::draw` writes when it is neither paused nor gated:
each one is `fadeLinear(savedBuffer[i], targetColor, 100, breathIntensity)`. -/
theorem breathing_draw_buffer (cos : ℚ → ℚ) (PI : ℚ) (b : BreathingExpression) :
    (b.draw cos PI false true).fb.buffer
      = forPixels b.fb.pixelCount.toNat
          (fun i _ => fadeLinear (b.savedBuffer[i]?.getD default) b.targetColor 100
            (breathIntensity cos PI b.breathPhase)) b.fb.buffer := by
  simp [BreathingExpression.draw, BreathingExpression.nextFrame, Expression.nextFrame_fb,
    breathIntensity]

/-- With the real cosine and π, the breath intensity
`floor((0.5 - 0.5*cos(2π·phase)) * 100)` is 0 at phase 0, where the blend yields the
saved base color, 100 at phase 0.5, where it yields the target color, and it is at most
100 at every phase. -/
theorem breathing_intensity_endpoints :
    breathIntensity Real.cos Real.pi 0 = 0 ∧
    breathIntensity Real.cos Real.pi (1 / 2) = 100 ∧
    (∀ phase : ℝ, breathIntensity Real.cos Real.pi phase ≤ 100) ∧
    (∀ base target : Color,
      fadeLinear base target 100 (breathIntensity Real.cos Real.pi 0) = base ∧
      fadeLinear base target 100 (breathIntensity Real.cos Real.pi (1 / 2)) = target) := by
  have h := breathIntensity_of_cosine Real.cos Real.pi Real.cos_zero Real.cos_pi
    (fun x => ⟨Real.neg_one_le_cos x, Real.cos_le_one x⟩)
  refine ⟨h.1, h.2.1, h.2.2, fun base target => ?_⟩
  rw [h.1, h.2.1]
  constructor
  · rfl
  · rfl

/-- C18: `onUpdate` changes the sub-state only along the cycle: from FADING_TO_PALETTE
to SHIFTED on the last frame, from SHIFTED to FADING_BACK once
`millis() - shiftStartMs > currentShiftDurationMs`, from FADING_BACK to IDLE on the last
frame; it never leaves IDLE and never enters FADING_TO_PALETTE, which only
`onTrigger`/`startShift` set; `startUnshift` sets FADING_BACK and `draw` keeps the
sub-state. -/
theorem shifty_onUpdate_follows_cycle (s : ShiftyExpression) (now : Nat)
    (randomColor : Color) (dist : Nat → Nat → Nat) (paused affect : Bool) :
    ((s.onUpdate now).state ≠ s.state →
      (s.state = ShiftyState.FADING_TO_PALETTE ∧ (s.onUpdate now).state = ShiftyState.SHIFTED ∧
        s.isLastFrame = true) ∨
      (s.state = ShiftyState.SHIFTED ∧ (s.onUpdate now).state = ShiftyState.FADING_BACK ∧
        subU32 now s.shiftStartMs > s.currentShiftDurationMs) ∨
      (s.state = ShiftyState.FADING_BACK ∧ (s.onUpdate now).state = ShiftyState.IDLE ∧
        s.isLastFrame = true)) ∧
    (s.state = ShiftyState.IDLE → s.onUpdate now = s) ∧
    ((s.onUpdate now).state = ShiftyState.FADING_TO_PALETTE →
      s.state = ShiftyState.FADING_TO_PALETTE) ∧
    (s.onTrigger randomColor dist now).state = ShiftyState.FADING_TO_PALETTE ∧
    (s.startShift randomColor dist now).state = ShiftyState.FADING_TO_PALETTE ∧
    s.startUnshift.state = ShiftyState.FADING_BACK ∧
    (s.draw paused affect).state = s.state := by
  refine ⟨?_, ?_, ?_, rfl, rfl, rfl, ?_⟩
  · intro hne
    unfold ShiftyExpression.onUpdate at hne ⊢
    cases hst : s.state <;> simp only [hst] at hne ⊢
    · exact absurd rfl hne
    · by_cases hl : s.isLastFrame = true
      · simp [hl]
      · simp [hl, hst] at hne
    · by_cases hd : subU32 now s.shiftStartMs > s.currentShiftDurationMs
      · simp [hd, ShiftyExpression.startUnshift]
      · simp [hd, hst] at hne
    · by_cases hl : s.isLastFrame = true
      · simp [hl]
      · simp [hl, hst] at hne
  · intro hst
    unfold ShiftyExpression.onUpdate
    simp [hst]
  · intro h
    unfold ShiftyExpression.onUpdate at h
    cases hst : s.state <;> simp only [hst] at h
    · exact absurd h (by decide)
    · rfl
    · by_cases hd : subU32 now s.shiftStartMs > s.currentShiftDurationMs
      · simp [hd, ShiftyExpression.startUnshift] at h
      · simp [hd, hst] at h
    · by_cases hl : s.isLastFrame = true
      · simp [hl] at h
      · simp [hl, hst] at h
  · unfold ShiftyExpression.draw
    cases paused <;> cases affect <;> simp [ShiftyExpression.nextFrame]
    cases hst : s.state <;> simp [hst]

/-- C18 witness: on the last frame of the fade back `onUpdate` changes the sub-state,
and the change is the step FADING_BACK → IDLE. -/
theorem shifty_onUpdate_follows_cycle_witness :
    (shiftyFadingBackLast.onUpdate 400033).state ≠ shiftyFadingBackLast.state ∧
    ((shiftyFadingBackLast.state = ShiftyState.FADING_TO_PALETTE ∧
        (shiftyFadingBackLast.onUpdate 400033).state = ShiftyState.SHIFTED ∧
        shiftyFadingBackLast.isLastFrame = true) ∨
      (shiftyFadingBackLast.state = ShiftyState.SHIFTED ∧
        (shiftyFadingBackLast.onUpdate 400033).state = ShiftyState.FADING_BACK ∧
        subU32 400033 shiftyFadingBackLast.shiftStartMs
          > shiftyFadingBackLast.currentShiftDurationMs) ∨
      (shiftyFadingBackLast.state = ShiftyState.FADING_BACK ∧
        (shiftyFadingBackLast.onUpdate 400033).state = ShiftyState.IDLE ∧
        shiftyFadingBackLast.isLastFrame = true)) :=
  ⟨by decide,
   (shifty_onUpdate_follows_cycle shiftyFadingBackLast 400033 ⟨0, 0, 0, 0⟩ (fun a _ => a)
    false true).1 (by decide)⟩

/-- With at least three colors the color step moves the index to an adjacent entry and
keeps the invariant "inside the palette, and not on the last entry while going forward",
which holds after `onTrigger`. -/
theorem BreathingExpression.advanceColor_adjacent_of_three (b : BreathingExpression)
    (hn : 3 ≤ b.colors.length) (hU : b.colors.length ≤ U32)
    (hidx : b.currentColorIndex < b.colors.length)
    (hfwd : b.cyclingForward = true → b.currentColorIndex + 1 < b.colors.length) :
    (b.advanceColor.currentColorIndex = b.currentColorIndex + 1 ∨
      b.advanceColor.currentColorIndex + 1 = b.currentColorIndex) ∧
    b.advanceColor.currentColorIndex < b.colors.length ∧
    (b.advanceColor.cyclingForward = true →
      b.advanceColor.currentColorIndex + 1 < b.colors.length) := by
  unfold BreathingExpression.advanceColor
  simp only
  have hlen : b.colors.length > 1 := by omega
  rw [if_pos hlen]
  by_cases hf : b.cyclingForward = true
  · have hlt := hfwd hf
    have hmod : (b.currentColorIndex + 1) % U32 = b.currentColorIndex + 1 :=
      Nat.mod_eq_of_lt (by omega)
    simp only [hf, if_true, hmod]
    split_ifs <;> simp <;> omega
  · simp only [hf, if_false, Bool.false_eq_true]
    split_ifs <;> simp <;> omega

/-- C19: with a palette of two colors the index does not ping-pong. After `onTrigger`
and breath cycles of exactly 10 s the index goes 0, 1, 0, 1 and then stays 1 for a second
cycle: the fourth wraparound (the direction flips from forward to backward, so the wrap
branch ran) leaves the index on the same palette entry. -/
theorem breathing_two_colors_repeat_entry :
    breathingTwoColors.colors.length = 2 ∧
    (breathingTwoColorsRun [1000]).currentColorIndex = 0 ∧
    (breathingTwoColorsRun [1000, 11000]).currentColorIndex = 1 ∧
    (breathingTwoColorsRun [1000, 11000, 21000]).currentColorIndex = 0 ∧
    (breathingTwoColorsRun [1000, 11000, 21000, 31000]).currentColorIndex = 1 ∧
    (breathingTwoColorsRun [1000, 11000, 21000, 31000]).cyclingForward = true ∧
    (breathingTwoColorsRun [1000, 11000, 21000, 31000, 41000]).currentColorIndex = 1 ∧
    (breathingTwoColorsRun [1000, 11000, 21000, 31000, 41000]).cyclingForward = false := by
  refine ⟨by decide, ?_, ?_, ?_, ?_, ?_, ?_, ?_⟩ <;>
    simp [breathingTwoColorsRun, List.foldl, BreathingExpression.updateBreathPhase,
      BreathingExpression.advanceColor, BreathingExpression.onTrigger, breathingTwoColors,
      breathingPlaying, Expression.saveBufferState, Expression.play, subU32, U32]

/-- For a non-negative pixel count the `uint32_t` bound of `draw` is at most the exact
sum `pixelCount + 2 * pulseWidth`, and equals it when the sum does not wrap. -/
theorem PulseExpression.stripEnd_le (p : PulseExpression) (hpc : 0 ≤ p.fb.pixelCount) :
    ((p.stripEnd : Int) ≤ p.fb.pixelCount + 2 * (p.pulseWidth : Int)) ∧
    (p.fb.pixelCount + 2 * (p.pulseWidth : Int) < (U32 : Int) →
      (p.stripEnd : Int) = p.fb.pixelCount + 2 * (p.pulseWidth : Int)) := by
  unfold PulseExpression.stripEnd U32
  push_cast
  omega

/-- Once the wave center has passed the exact sum `pixelCount + 2 * pulseWidth`, the
blend factor of every pixel `0 ≤ i < pixelCount` is 0, the stop test of `draw` holds, and
an unpaused, ungated `draw()` leaves `animationState` STOPPED. -/
theorem pulse_past_strip_end (p : PulseExpression) (now : Nat)
    (hpc : 0 ≤ p.fb.pixelCount)
    (hpast : (p.fb.pixelCount : ℚ) + 2 * (p.pulseWidth : ℚ) < p.wavePosition) :
    (∀ i : Int, 0 ≤ i → i < p.fb.pixelCount → p.calculateBlendFactor i = 0) ∧
    p.wavePosition > (p.stripEnd : ℚ) ∧
    (p.draw false true now).animationState = AnimationState.STOPPED := by
  have hend : (p.stripEnd : ℚ) ≤ (p.fb.pixelCount : ℚ) + 2 * (p.pulseWidth : ℚ) := by
    have h := (PulseExpression.stripEnd_le p hpc).1
    have hq : ((p.stripEnd : Int) : ℚ) ≤ ((p.fb.pixelCount + 2 * (p.pulseWidth : Int) : Int) : ℚ) :=
      Int.cast_le.mpr h
    push_cast at hq
    exact hq
  have hgt : p.wavePosition > (p.stripEnd : ℚ) := lt_of_le_of_lt hend hpast
  refine ⟨?_, hgt, ?_⟩
  · intro i hi0 hilt
    have hiq : (i : ℚ) < (p.fb.pixelCount : ℚ) := Int.cast_lt.mpr hilt
    have hW : (0 : ℚ) ≤ (p.pulseWidth : ℚ) := Nat.cast_nonneg _
    have hdist : |(i : ℚ) - p.wavePosition| > (p.pulseWidth : ℚ) := by
      rw [abs_sub_comm, abs_of_pos (by linarith)]
      linarith
    unfold PulseExpression.calculateBlendFactor
    simp only
    rw [if_pos hdist]
  · have hnf : ∀ q : PulseExpression, q.nextFrame.stripEnd = q.stripEnd := fun q => by
      simp [PulseExpression.stripEnd, PulseExpression.nextFrame, Expression.nextFrame_fb]
    have hnw : ∀ q : PulseExpression, q.nextFrame.wavePosition = q.wavePosition := fun q => rfl
    have hnot : ¬ (p.wavePosition ≤ (p.stripEnd : ℚ)) := not_le.mpr hgt
    have key : ∀ q : PulseExpression, q.wavePosition > (q.stripEnd : ℚ) →
        (if q.wavePosition > (q.stripEnd : ℚ) then
          if q.animationState ≠ AnimationState.STOPPED then q.stop else q
        else q).animationState = AnimationState.STOPPED := by
      intro q hq
      rw [if_pos hq]
      split_ifs with h
      · rfl
      · exact not_not.mp h
    have h1 : ¬ (false = true) := by decide
    have h2 : ¬ ((!true) = true ∧ p.animationState ≠ AnimationState.STOPPED) := by simp
    have h3 : ¬ (p.animationState = AnimationState.STOPPED ∧
        p.wavePosition ≤ (p.stripEnd : ℚ)) := fun h => hnot h.2
    unfold PulseExpression.draw
    simp only []
    rw [if_neg h1, if_neg h2, if_neg h3]
    apply key
    rw [hnw, hnf]
    exact hgt

/-- A two-pixel strip with `pulseWidth = 15` and the wave center at 33 is past the sum. -/
theorem pulse_past_strip_end_witness :
    (0 : Int) ≤ pulsePastEnd.fb.pixelCount ∧
    (pulsePastEnd.fb.pixelCount : ℚ) + 2 * (pulsePastEnd.pulseWidth : ℚ)
      < pulsePastEnd.wavePosition ∧
    (∀ i : Int, 0 ≤ i → i < pulsePastEnd.fb.pixelCount →
      pulsePastEnd.calculateBlendFactor i = 0) ∧
    pulsePastEnd.wavePosition > (pulsePastEnd.stripEnd : ℚ) ∧
    (pulsePastEnd.draw false true 1033).animationState = AnimationState.STOPPED :=
  ⟨by decide, by norm_num [pulsePastEnd, pulsePlaying],
   pulse_past_strip_end pulsePastEnd 1033 (by decide)
    (by norm_num [pulsePastEnd, pulsePlaying])⟩

/-- The configured duration range is ordered. -/
theorem GlitchyExpression.configure_min_le_max (g : GlitchyExpression)
    (parameters : String → Option Nat) :
    (g.configureFromParameters parameters).glitchDurationMin
      ≤ (g.configureFromParameters parameters).glitchDurationMax := by
  simp only [GlitchyExpression.configureFromParameters]
  generalize (parameters "durationMin").getD 1 = a
  generalize (parameters "durationMax").getD 3 = b
  split_ifs <;> omega

/-- C21: after `configureFromParameters`, `onTrigger` sets `frames` inside
`glitchDurationMin..glitchDurationMax` for every generator that honours the contract of
`std::uniform_int_distribution` (a draw from `a..b` with `a ≤ b` lies in `a..b`); when the
two bounds are equal, `frames` is that bound for any generator at all and no range is
constructed or drawn from. -/
theorem glitchy_onTrigger_frames_in_range (g : GlitchyExpression)
    (parameters : String → Option Nat) (randomColor : Color) (dist anyDist : Nat → Nat → Nat)
    (hdist : ∀ a b, a ≤ b → a ≤ dist a b ∧ dist a b ≤ b) :
    (g.configureFromParameters parameters).glitchDurationMin
      ≤ ((g.configureFromParameters parameters).onTrigger randomColor dist).1.frames ∧
    ((g.configureFromParameters parameters).onTrigger randomColor dist).1.frames
      ≤ (g.configureFromParameters parameters).glitchDurationMax ∧
    ((g.configureFromParameters parameters).glitchDurationMin
        = (g.configureFromParameters parameters).glitchDurationMax →
      ((g.configureFromParameters parameters).onTrigger randomColor anyDist).1.frames
        = (g.configureFromParameters parameters).glitchDurationMin ∧
      ((g.configureFromParameters parameters).onTrigger randomColor anyDist).2 = []) := by
  have hrange := GlitchyExpression.configure_min_le_max g parameters
  generalize g.configureFromParameters parameters = c at hrange ⊢
  have hd := hdist c.glitchDurationMin c.glitchDurationMax hrange
  refine ⟨?_, ?_, ?_⟩
  · unfold GlitchyExpression.onTrigger
    simp only
    split_ifs with h
    · exact le_rfl
    · exact hd.1
  · unfold GlitchyExpression.onTrigger
    simp only
    split_ifs with h
    · exact hrange
    · exact hd.2
  · intro heq
    unfold GlitchyExpression.onTrigger
    simp only
    rw [if_pos heq]
    exact ⟨rfl, rfl⟩

/-- C21 witness: the default range 1..3 with a generator that yields the lower bound,
and the fixed range 5..5 with a generator that would yield 0. -/
theorem glitchy_onTrigger_frames_in_range_witness :
    (1 ≤ ((glitchyLastFrameGated.configureFromParameters paramsEmpty).onTrigger
        ⟨255, 0, 0, 0⟩ (fun a _ => a)).1.frames ∧
      ((glitchyLastFrameGated.configureFromParameters paramsEmpty).onTrigger
        ⟨255, 0, 0, 0⟩ (fun a _ => a)).1.frames ≤ 3) ∧
    (((glitchyLastFrameGated.configureFromParameters paramsDurationInverted).onTrigger
        ⟨255, 0, 0, 0⟩ (fun _ _ => 0)).1.frames = 5 ∧
      ((glitchyLastFrameGated.configureFromParameters paramsDurationInverted).onTrigger
        ⟨255, 0, 0, 0⟩ (fun _ _ => 0)).2 = []) :=
  ⟨⟨(glitchy_onTrigger_frames_in_range glitchyLastFrameGated paramsEmpty ⟨255, 0, 0, 0⟩
        (fun a _ => a) (fun _ _ => 0) (fun _ _ h => ⟨le_rfl, h⟩)).1,
    (glitchy_onTrigger_frames_in_range glitchyLastFrameGated paramsEmpty ⟨255, 0, 0, 0⟩
        (fun a _ => a) (fun _ _ => 0) (fun _ _ h => ⟨le_rfl, h⟩)).2.1⟩,
   (glitchy_onTrigger_frames_in_range glitchyLastFrameGated paramsDurationInverted
      ⟨255, 0, 0, 0⟩ (fun a _ => a) (fun _ _ => 0) (fun _ _ h => ⟨le_rfl, h⟩)).2.2
    (by decide)⟩

/-- While fading, an unpaused and ungated `draw` writes to each pixel the value of
`fadeLinear` with `totalSteps = frames` and `step = frame`: the arguments that
`drawFadeArguments` lists. -/
theorem shifty_draw_fades_with_frames (s : ShiftyExpression)
    (hfade : s.state = ShiftyState.FADING_TO_PALETTE ∨ s.state = ShiftyState.FADING_BACK) :
    (s.draw false true).fb.buffer
      = forPixels s.fb.pixelCount.toNat
          (fun i _ => fadeLinear (s.fadeStartColors[i]?.getD default)
            (s.fadeTargetColors[i]?.getD default) s.frames s.frame) s.fb.buffer ∧
    s.drawFadeArguments false true
      = (List.range s.fb.pixelCount.toNat).map (fun _ => (s.frames, s.frame)) := by
  rcases hfade with h | h <;>
    simp [ShiftyExpression.draw, ShiftyExpression.drawFadeArguments, h,
      ShiftyExpression.nextFrame, Expression.nextFrame_fb]

/-- C22: `fadeLinear` is reached with `totalSteps = 0`. For `fadeDuration = 0` (and for
`fadeDuration = 2147483648`, whose product with 30 wraps) `fadeDurationFrames` is 0; the
draw right after `onTrigger` passes `(totalSteps, step) = (0, 0)`, and so does the draw
of the tick in which the hold time has run out and `onUpdate` starts the fade back. -/
theorem shifty_fade_with_zero_total_steps :
    (shiftyFadingBack.configureFromParameters paramsFadeZero true).fadeDurationFrames = 0 ∧
    (shiftyFadingBack.configureFromParameters paramsFadeWrap true).fadeDurationFrames = 0 ∧
    (((shiftyFadingBack.configureFromParameters paramsFadeZero true).onTrigger
        ⟨255, 255, 255, 255⟩ (fun a _ => a) 1000).state = ShiftyState.FADING_TO_PALETTE ∧
      ((shiftyFadingBack.configureFromParameters paramsFadeZero true).onTrigger
        ⟨255, 255, 255, 255⟩ (fun a _ => a) 1000).frames = 0 ∧
      ((shiftyFadingBack.configureFromParameters paramsFadeZero true).onTrigger
        ⟨255, 255, 255, 255⟩ (fun a _ => a) 1000).drawFadeArguments false true = [(0, 0)]) ∧
    (shiftyHoldingNoFade.state = ShiftyState.SHIFTED ∧
      (shiftyHoldingNoFade.onUpdate 302000).state = ShiftyState.FADING_BACK ∧
      (shiftyHoldingNoFade.onUpdate 302000).frames = 0 ∧
      (shiftyHoldingNoFade.onUpdate 302000).drawFadeArguments false true = [(0, 0)]) := by
  decide

/-- When `fadeDuration * 30` is not a multiple of `2^32`, the configured
`fadeDurationFrames` is not zero; the default 60 gives 1800. -/
theorem shifty_configure_fade_frames_pos (s : ShiftyExpression)
    (parameters : String → Option Nat) (hasFrameBuffer : Bool)
    (hne : (parameters "fadeDuration").getD 60 * 30 % U32 ≠ 0) :
    (s.configureFromParameters parameters hasFrameBuffer).fadeDurationFrames ≠ 0 := by
  unfold ShiftyExpression.configureFromParameters
  simp only
  split_ifs <;> exact hne

/-- C23: after `configureFromParameters` the pulse speed is at least 100 ms per pixel;
with a frame buffer of `pixelCount > 0` it is `max(100, (pulseSpeed * 1000) / pixelCount)`
in `uint32_t` arithmetic, `pulseSpeed` defaulting to 3, and otherwise it is 100. -/
theorem pulse_configure_speed_floor (p : PulseExpression)
    (parameters : String → Option Nat) (hasFrameBuffer : Bool) :
    100 ≤ (p.configureFromParameters parameters hasFrameBuffer).pulseSpeedMs ∧
    (hasFrameBuffer = true → p.fb.pixelCount > 0 →
      (p.configureFromParameters parameters hasFrameBuffer).pulseSpeedMs
        = max 100 (((parameters "pulseSpeed").getD 3 * 1000 % U32) / p.fb.pixelCount.toNat)) ∧
    (hasFrameBuffer = false ∨ p.fb.pixelCount ≤ 0 →
      (p.configureFromParameters parameters hasFrameBuffer).pulseSpeedMs = 100) := by
  have hspeed : (p.configureFromParameters parameters hasFrameBuffer).pulseSpeedMs
      = if hasFrameBuffer = true ∧ p.fb.pixelCount > 0 then
          max 100 (((parameters "pulseSpeed").getD 3 * 1000 % U32) / p.fb.pixelCount.toNat)
        else 100 := by
    unfold PulseExpression.configureFromParameters
    simp only
    split_ifs <;> rfl
  rw [hspeed]
  refine ⟨?_, ?_, ?_⟩
  · split_ifs
    · exact le_max_left _ _
    · exact le_rfl
  · intro hfb hpc
    rw [if_pos ⟨hfb, hpc⟩]
  · intro h
    have hnot : ¬ (hasFrameBuffer = true ∧ p.fb.pixelCount > 0) := by
      rintro ⟨hfb, hpc⟩
      rcases h with h | h
      · rw [h] at hfb
        exact absurd hfb (by decide)
      · omega
    rw [if_neg hnot]

/-- C23 witness: a two-pixel strip with the default `pulseSpeed = 3` gets 1500 ms per
pixel; without a frame buffer the speed is 100. -/
theorem pulse_configure_speed_floor_witness :
    (pulsePlaying.configureFromParameters paramsEmpty true).pulseSpeedMs
        = max 100 ((paramsEmpty "pulseSpeed").getD 3 * 1000 % U32
            / pulsePlaying.fb.pixelCount.toNat) ∧
    (pulsePlaying.configureFromParameters paramsEmpty true).pulseSpeedMs = 1500 ∧
    (pulsePlaying.configureFromParameters paramsEmpty false).pulseSpeedMs = 100 :=
  ⟨(pulse_configure_speed_floor pulsePlaying paramsEmpty true).2.1 rfl (by decide),
   by decide,
   (pulse_configure_speed_floor pulsePlaying paramsEmpty false).2.2 (Or.inl rfl)⟩

/-- When less than two breath cycles have elapsed (`breathPhase + deltaMs / breathSpeedMs
< 2`), `updateBreathPhase` keeps a phase of `[0, 1)` inside `[0, 1)`. -/
theorem breathing_phase_in_range_of_short_delta (b : BreathingExpression) (now : Nat)
    (h0 : 0 ≤ b.breathPhase) (h1 : b.breathPhase < 1)
    (hshort : b.breathPhase
      + (subU32 now b.lastBreathUpdateMs : ℚ) / (b.breathSpeedMs : ℚ) < 2) :
    0 ≤ (b.updateBreathPhase now).breathPhase ∧ (b.updateBreathPhase now).breathPhase < 1 := by
  have hadv : ∀ q : BreathingExpression, q.advanceColor.breathPhase = q.breathPhase := by
    intro q
    unfold BreathingExpression.advanceColor
    simp only
    split_ifs <;> rfl
  unfold BreathingExpression.updateBreathPhase
  simp only
  split_ifs with hl hw
  · exact ⟨h0, h1⟩
  · simp only [hadv]
    constructor <;> linarith
  · have hinc : (0 : ℚ) ≤ (subU32 now b.lastBreathUpdateMs : ℚ) / (b.breathSpeedMs : ℚ) :=
      div_nonneg (Nat.cast_nonneg _) (Nat.cast_nonneg _)
    simp only
    constructor
    · linarith
    · exact not_le.mp hw

/-- C24: one subtraction does not bring the phase back into the range. With a 1 s breath
cycle (`breathSpeedMs = 1000 > 0`), phase 1/4 and 3 s since the last update, as after a
pause by an exclusive effect, the phase after `updateBreathPhase` is 9/4. -/
theorem breathing_phase_leaves_range :
    breathingFast.breathSpeedMs = 1000 ∧
    breathingFast.breathPhase = 1 / 4 ∧
    subU32 4000 breathingFast.lastBreathUpdateMs = 3000 ∧
    (breathingFast.updateBreathPhase 4000).breathPhase = 9 / 4 ∧
    ¬ ((breathingFast.updateBreathPhase 4000).breathPhase < 1) := by
  have hphase : (breathingFast.updateBreathPhase 4000).breathPhase = 9 / 4 := by
    simp [BreathingExpression.updateBreathPhase, BreathingExpression.advanceColor,
      breathingFast, breathingPlaying, subU32, U32]
    norm_num
  refine ⟨rfl, rfl, by decide, hphase, ?_⟩
  rw [hphase]
  norm_num

/-- C17: the breath intensity that `draw` computes and renders. An unpaused, ungated
`draw` blends every pixel from its saved base color toward the target color at
`floor((0.5 - 0.5*cos(breathPhase*2*PI)) * 100)` of 100 steps, and for a cosine with
`cos 0 = 1`, `cos PI = -1` and values in `[-1, 1]` that step count is at most 100 at every
phase, 0 at phase 0, where each pixel gets its saved base color, and 100 at phase 0.5,
where each pixel gets the target color. The real cosine with π meets these conditions
and gives the same three values. -/
theorem breathing_draw_intensity_endpoints (cos : ℚ → ℚ) (PI : ℚ) (b : BreathingExpression)
    (h0 : cos 0 = 1) (hpi : cos PI = -1) (hrange : ∀ x, -1 ≤ cos x ∧ cos x ≤ 1) :
    ((b.draw cos PI false true).fb.buffer
        = forPixels b.fb.pixelCount.toNat
            (fun i _ => fadeLinear (b.savedBuffer[i]?.getD default) b.targetColor 100
              (⌊(1 / 2 - 1 / 2 * cos (b.breathPhase * 2 * PI)) * 100⌋.toNat % U32))
            b.fb.buffer ∧
      ⌊(1 / 2 - 1 / 2 * cos (b.breathPhase * 2 * PI)) * 100⌋.toNat % U32 ≤ 100) ∧
    (b.breathPhase = 0 →
      ⌊(1 / 2 - 1 / 2 * cos (b.breathPhase * 2 * PI)) * 100⌋.toNat % U32 = 0 ∧
      ∀ i, i < b.fb.pixelCount.toNat → i < b.fb.buffer.length → i < b.savedBuffer.length →
        (b.draw cos PI false true).fb.buffer[i]? = b.savedBuffer[i]?) ∧
    (b.breathPhase = 1 / 2 →
      ⌊(1 / 2 - 1 / 2 * cos (b.breathPhase * 2 * PI)) * 100⌋.toNat % U32 = 100 ∧
      ∀ i, i < b.fb.pixelCount.toNat → i < b.fb.buffer.length →
        (b.draw cos PI false true).fb.buffer[i]? = some b.targetColor) ∧
    (Real.cos 0 = 1 ∧ Real.cos Real.pi = -1 ∧
      (∀ x : ℝ, -1 ≤ Real.cos x ∧ Real.cos x ≤ 1) ∧
      breathIntensity Real.cos Real.pi 0 = 0 ∧
      breathIntensity Real.cos Real.pi (1 / 2) = 100 ∧
      ∀ phase : ℝ, breathIntensity Real.cos Real.pi phase ≤ 100) := by
  have hq := breathIntensity_of_cosine cos PI h0 hpi hrange
  have hr := breathIntensity_of_cosine Real.cos Real.pi Real.cos_zero Real.cos_pi
    (fun x => ⟨Real.neg_one_le_cos x, Real.cos_le_one x⟩)
  have hbuf : (b.draw cos PI false true).fb.buffer
      = forPixels b.fb.pixelCount.toNat
          (fun i _ => fadeLinear (b.savedBuffer[i]?.getD default) b.targetColor 100
            (⌊(1 / 2 - 1 / 2 * cos (b.breathPhase * 2 * PI)) * 100⌋.toNat % U32))
          b.fb.buffer := by
    simp [BreathingExpression.draw, BreathingExpression.nextFrame, Expression.nextFrame_fb]
  unfold breathIntensity at hq
  refine ⟨⟨hbuf, hq.2.2 b.breathPhase⟩, ?_, ?_, Real.cos_zero, Real.cos_pi,
    fun x => ⟨Real.neg_one_le_cos x, Real.cos_le_one x⟩, hr.1, hr.2.1, hr.2.2⟩
  · intro hphase
    have hzero : ⌊(1 / 2 - 1 / 2 * cos (b.breathPhase * 2 * PI)) * 100⌋.toNat % U32 = 0 := by
      rw [hphase]
      exact hq.1
    refine ⟨hzero, fun i hi hb hs => ?_⟩
    rw [hbuf, forPixels_getElem?, if_pos hi, hzero]
    simp [List.getElem?_eq_getElem hb, List.getElem?_eq_getElem hs, fadeLinear,
      fadeLinearChannel]
  · intro hphase
    have hfull : ⌊(1 / 2 - 1 / 2 * cos (b.breathPhase * 2 * PI)) * 100⌋.toNat % U32 = 100 := by
      rw [hphase]
      exact hq.2.1
    refine ⟨hfull, fun i hi hb => ?_⟩
    rw [hbuf, forPixels_getElem?, if_pos hi, hfull]
    simp [List.getElem?_eq_getElem hb, fadeLinear, fadeLinearChannel]

/-- The stand-in cosine is 1 at 0, -1 at `rationalPI` and stays within `[-1, 1]`. -/
theorem rationalCos_spec :
    rationalCos 0 = 1 ∧ rationalCos rationalPI = -1 ∧
    ∀ x, -1 ≤ rationalCos x ∧ rationalCos x ≤ 1 := by
  refine ⟨by norm_num [rationalCos], by norm_num [rationalCos, rationalPI], fun x => ?_⟩
  unfold rationalCos
  refine ⟨le_max_left _ _, max_le (by norm_num) ?_⟩
  have := abs_nonneg x
  linarith

/-- C17 witness: with the stand-in cosine, the draw at phase 0 puts the saved base color
on pixel 0 and the draw at phase 1/2 the target color. -/
theorem breathing_draw_intensity_endpoints_witness :
    (rationalCos 0 = 1 ∧ rationalCos rationalPI = -1) ∧
    (breathingAtRest.draw rationalCos rationalPI false true).fb.buffer[0]?
      = some ⟨10, 20, 30, 0⟩ ∧
    (breathingAtPeak.draw rationalCos rationalPI false true).fb.buffer[0]?
      = some ⟨255, 255, 255, 255⟩ :=
  ⟨⟨rationalCos_spec.1, rationalCos_spec.2.1⟩,
   ((breathing_draw_intensity_endpoints rationalCos rationalPI breathingAtRest
      rationalCos_spec.1 rationalCos_spec.2.1 rationalCos_spec.2.2).2.1 rfl).2 0
      (by decide) (by decide) (by decide),
   ((breathing_draw_intensity_endpoints rationalCos rationalPI breathingAtPeak
      rationalCos_spec.1 rationalCos_spec.2.1 rationalCos_spec.2.2).2.2.1 rfl).2 0
      (by decide) (by decide)⟩

end Lamp
